import Mathlib

/-!
# Lead Intake Normalizer — verification development

Shallow embedding of the two HTTP form-intake variants of this repository:

* `src/server.js` — Express handler `POST /api/rb/lead` writing a positional
  row to a Google Sheet (`pick`, `toNumber`, `generateLeadId`, the 28-column
  `row`, and the handler's control flow);
* `src/netlify/functions/rb-lead.js` — Netlify function inserting a record
  into a Supabase table (`mapPayloadToRecord`, the 7-field required check,
  and the handler's control flow).

JavaScript runtime values occurring in a JSON form payload are modelled by
`JSValue` (undefined, null, booleans, numbers, strings, and arrays of
strings; arrays of non-string elements do not occur in any claim and are not
modelled).  JavaScript numbers are modelled by `JSNum`: NaN, the two
infinities, or a finite rational.  The network sinks (Sheets append,
Supabase insert) are modelled by a success flag parameter; the record or row
handed to the sink is returned in the result so that "no sink write
occurred" is expressible.
-/

/-- Model of a JavaScript number: NaN, +Infinity, -Infinity, or a finite
value (modelled as a rational; the claims only exercise integral values). -/
inductive JSNum where
  | nan
  | inf
  | neginf
  | fin (q : Rat)
deriving DecidableEq, Repr

/-- Model of a JavaScript value as it can occur in a parsed JSON form
payload.  Arrays are modelled only with string elements (the single array
use in the source, `hearAboutUs`, is a multi-select of strings). -/
inductive JSValue where
  | undef
  | null
  | bool (b : Bool)
  | num (v : JSNum)
  | str (s : String)
  | arr (elems : List String)
deriving DecidableEq, Repr

/-- Characters removed by JavaScript `String.prototype.trim` (the common
ASCII whitespace; exotic Unicode whitespace is not modelled). -/
def jsWhitespace : Char → Bool
  | ' ' | '\t' | '\n' | '\r' => true
  | _ => false

/-- Model of JavaScript `String.prototype.trim`: drop whitespace from both
ends. -/
def jsTrim (s : String) : String :=
  (((s.data.dropWhile jsWhitespace).reverse.dropWhile jsWhitespace).reverse).asString

/-- Decimal digits of a natural number, most significant first, computed
with explicit fuel so that the definition is structural (kernel-reducible).
`natToStr` always supplies enough fuel. -/
def natDigitsAux : Nat → Nat → List Nat
  | 0, _ => []
  | fuel + 1, n => if n < 10 then [n] else natDigitsAux fuel (n / 10) ++ [n % 10]

/-- Decimal rendering of a natural number (model of JavaScript number →
string conversion for non-negative integers). -/
def natToStr (n : Nat) : String :=
  ((natDigitsAux (n + 1) n).map Nat.digitChar).asString

/-- Decimal rendering of an integer. -/
def intToStr (i : Int) : String :=
  if i < 0 then "-" ++ natToStr i.natAbs else natToStr i.natAbs

/-- Model of JavaScript number → string conversion for a finite value.
Integral values (the only ones any modelled code path or claim stringifies)
are rendered exactly; JavaScript's shortest-roundtrip printing of
non-integral doubles is not modelled — the placeholder is non-blank, which
is all the modelled code ever observes about such a string (it is only fed
to blank-after-trim tests). -/
def ratToStr (q : Rat) : String :=
  if q.den = 1 then intToStr q.num else "[noninteger]"

/-- Model of JavaScript number → string conversion. -/
def numToStr : JSNum → String
  | .nan => "NaN"
  | .inf => "Infinity"
  | .neginf => "-Infinity"
  | .fin q => ratToStr q

/-- Model of JavaScript `String(v)` on the modelled values.  A string array
stringifies as its elements joined by commas. -/
def stringOfJS : JSValue → String
  | .undef => "undefined"
  | .null => "null"
  | .bool b => if b then "true" else "false"
  | .num v => numToStr v
  | .str s => s
  | .arr l => String.intercalate "," l

/-- Model of JavaScript truthiness. -/
def truthy : JSValue → Bool
  | .undef => false
  | .null => false
  | .bool b => b
  | .num .nan => false
  | .num (.fin q) => q != 0
  | .num _ => true
  | .str s => s != ""
  | .arr _ => true

/-- Model of JavaScript `a || b`. -/
def jsOr (a b : JSValue) : JSValue :=
  if truthy a then a else b

/-- Model of JavaScript `v || null` (used for request metadata fields). -/
def jsOrNull (v : JSValue) : JSValue :=
  if truthy v then v else .null

/-- Numeric value of a digit run (helper for the `Number(string)` model). -/
def digitsVal (l : List Char) : Nat :=
  l.foldl (fun a c => a * 10 + (c.toNat - 48)) 0

/-- Parse an unsigned decimal literal (digits, optionally with one decimal
point) as JavaScript `Number` does; `none` when the text is not such a
literal.  Hexadecimal and exponent forms are not modelled (no claim uses
them). -/
def parseDec (l : List Char) : Option Rat :=
  match l.span Char.isDigit with
  | (ds, []) => if ds.isEmpty then none else some (digitsVal ds : Rat)
  | (ds, '.' :: fs) =>
    if fs.all Char.isDigit && !(ds.isEmpty && fs.isEmpty) then
      some ((digitsVal ds : Rat) + (digitsVal fs : Rat) / ((10 : Rat) ^ fs.length))
    else none
  | _ => none

/-- Parse the magnitude part (after an optional sign) of a numeric string:
either the literal `Infinity` or a decimal literal. -/
def parseMagnitude (l : List Char) : Option JSNum :=
  if l = "Infinity".data then some .inf
  else (parseDec l).map JSNum.fin

/-- Model of JavaScript `Number(string)`: trim, empty means 0, optional
sign, then a decimal literal or `Infinity`; anything else is NaN. -/
def strToNum (s : String) : JSNum :=
  match (jsTrim s).data with
  | [] => .fin 0
  | '+' :: rest => (parseMagnitude rest).getD .nan
  | '-' :: rest =>
    match parseMagnitude rest with
    | some .inf => .neginf
    | some (.fin q) => .fin (-q)
    | _ => .nan
  | l => (parseMagnitude l).getD .nan

/-- Model of JavaScript `Number(v)` on the modelled values.  `Number` of an
array is `Number` of its single element's string, 0 when empty, NaN
otherwise. -/
def jsNumber : JSValue → JSNum
  | .undef => .nan
  | .null => .fin 0
  | .bool b => .fin (if b then 1 else 0)
  | .num v => v
  | .str s => strToNum s
  | .arr [] => .fin 0
  | .arr [s] => strToNum s
  | .arr _ => .nan

/-- Model of JavaScript strict equality `===` on the modelled values.
`NaN === NaN` is false; arrays compare by reference, so two separately
materialised arrays are never strictly equal (modelled as false — the
source only compares against boolean and string literals). -/
def jsStrictEq : JSValue → JSValue → Bool
  | .undef, .undef => true
  | .null, .null => true
  | .bool a, .bool b => a == b
  | .str a, .str b => a == b
  | .num a, .num b =>
    match a, b with
    | .fin x, .fin y => x == y
    | .inf, .inf => true
    | .neginf, .neginf => true
    | _, _ => false
  | _, _ => false

/-- A parsed JSON object: association list from keys to values. -/
def JSObj : Type := List (String × JSValue)

instance : DecidableEq JSObj := by
  unfold JSObj
  infer_instance

/-- Model of JavaScript property access `o[k]` on an object: the first
binding of the key, `undefined` when absent. -/
def jget (o : JSObj) (k : String) : JSValue :=
  (List.lookup k o).getD JSValue.undef

/-- From `src/server.js` (`function toNumber(x)`): coerce with `Number`,
substituting 0 when the result is not finite. -/
def toNumber (x : JSValue) : Rat :=
  match jsNumber x with
  | .fin q => q
  | _ => 0

/-- From `src/server.js` and `src/netlify/functions/rb-lead.js`
(`function generateLeadId()`): `"RB" + (Math.floor(Math.random()*90000) + 10000)`.
The random draw `Math.random()`, which lies in `[0, 1)`, is passed as the
parameter `rand`. -/
def generateLeadId (rand : Rat) : String :=
  "RB" ++ natToStr ((⌊rand * 90000⌋).toNat + 10000)

/-- From `src/server.js` (`function pick(formData, keys, fallback = "")`):
return the first listed key whose value is defined, non-null, and non-blank
after stringification and trimming; otherwise the fallback. -/
def pick (formData : JSObj) (keys : List String) (fallback : JSValue) : JSValue :=
  match keys with
  | [] => fallback
  | k :: rest =>
    let v := jget formData k
    if v ≠ JSValue.undef ∧ v ≠ JSValue.null ∧ jsTrim (stringOfJS v) ≠ "" then v
    else pick formData rest fallback

/-! ## Sheets variant — `src/server.js` -/

/-- A cell of the appended spreadsheet row: the source row mixes strings and
numbers. -/
inductive Cell where
  | str (s : String)
  | num (q : Rat)
deriving DecidableEq, Repr

/-- Configuration read once from the environment by `src/server.js`: the
spreadsheet id and the stage/notes defaults (source defaults `"New"` and
`"Created via Rebuild Web Form"` when the environment variables are
absent). -/
structure ServerConfig where
  spreadsheetId : String
  stageDefault : String := "New"
  notesDefault : String := "Created via Rebuild Web Form"

/-- The configuration with all defaulted values (environment variables other
than `SPREADSHEET_ID` absent). -/
def stdConfig (sid : String) : ServerConfig :=
  { spreadsheetId := sid }

/-- From `src/server.js`: `String(pick(formData, ["fullName"], "")).trim()`. -/
def reqFullName (formData : JSObj) : String :=
  jsTrim (stringOfJS (pick formData ["fullName"] (.str "")))

/-- From `src/server.js`: `String(pick(formData, ["primaryPhone"], "")).trim()`. -/
def reqPrimaryPhone (formData : JSObj) : String :=
  jsTrim (stringOfJS (pick formData ["primaryPhone"] (.str "")))

/-- From `src/server.js`: `String(pick(formData, ["preferredChannel"], "")).trim()`. -/
def reqPreferredChannel (formData : JSObj) : String :=
  jsTrim (stringOfJS (pick formData ["preferredChannel"] (.str "")))

/-- From `src/server.js`:
`const leadId = String(pick(formData, ["leadId"], generateLeadId()))`. -/
def serverLeadId (formData : JSObj) (rand : Rat) : String :=
  stringOfJS (pick formData ["leadId"] (.str (generateLeadId rand)))

/-- From `src/server.js` (`const row = [...]`): the 28-cell positional row
appended to the sheet, columns A..AB. -/
def leadRow (cfg : ServerConfig) (formData : JSObj) (leadId timestamp : String) :
    List Cell :=
  [ .str timestamp,
    .str leadId,
    .str (reqFullName formData),
    .str (reqPrimaryPhone formData),
    .str (stringOfJS (pick formData ["email"] (.str ""))),
    .str (reqPreferredChannel formData),
    .str (stringOfJS (pick formData ["parish"] (.str ""))),
    .str (stringOfJS (pick formData ["community"] (.str ""))),
    .str (stringOfJS (pick formData ["propertyStatus"] (.str ""))),
    .str (stringOfJS (pick formData ["rebuildType"] (.str ""))),
    .num (toNumber (pick formData ["hurricaneImpactLevel"] (.num (.fin 0)))),
    .num (toNumber (pick formData ["projectPriority"] (.num (.fin 0)))),
    .num (toNumber (pick formData ["estimatedBudget"] (.num (.fin 0)))),
    .num (toNumber (pick formData ["comfortableMonthly", "monthlyPayment"] (.num (.fin 0)))),
    .num (toNumber (pick formData ["desiredTimelineMonths", "startTimelineMonths"] (.num (.fin 0)))),
    .str (stringOfJS (pick formData ["nhtContributor"] (.str ""))),
    .str (stringOfJS (pick formData ["nhtProduct"] (.str ""))),
    .str (stringOfJS (pick formData ["otherFinancing"] (.str ""))),
    .str (stringOfJS (pick formData ["employmentType"] (.str ""))),
    .str (stringOfJS (pick formData ["incomeRange"] (.str ""))),
    .str (jsTrim (stringOfJS (pick formData ["hasOverseasSponsor", "overseasSponsor"] (.str "")))),
    .str (stringOfJS (pick formData ["sponsorCountry"] (.str ""))),
    .str (stringOfJS (pick formData ["willingVisit"] (.str ""))),
    .str (stringOfJS (pick formData ["visitWindow"] (.str ""))),
    .str (stringOfJS (pick formData ["hearAboutUs"] (.str ""))),
    .num (toNumber (pick formData ["leadScore"] (.num (.fin 0)))),
    .str (stringOfJS (pick formData ["stage"] (.str cfg.stageDefault))),
    .str (stringOfJS (pick formData ["notes"] (.str cfg.notesDefault))) ]

/-- Outcome of one `POST /api/rb/lead` request in `src/server.js`: HTTP
status, the `success` flag and `error`/`leadId` fields of the JSON body, and
the row handed to the Sheets append (present exactly when an append
succeeded — the 400/500 paths return before or fail at the append). -/
structure ServerResult where
  status : Nat
  success : Bool
  error : Option String
  leadId : Option String
  sinkWrite : Option (List Cell)
deriving DecidableEq, Repr

/-- From `src/server.js` (`app.post("/api/rb/lead", ...)`).  `timestamp`
stands for `new Date().toISOString()`, `rand` for the `Math.random()` draw,
and `sheetsOk` for whether the Sheets API calls succeed (client creation,
sheet/header provisioning and append are collapsed into one flag; any
failure lands in the catch-all 500). -/
def postRbLead (cfg : ServerConfig) (formData : JSObj) (rand : Rat)
    (timestamp : String) (sheetsOk : Bool) : ServerResult :=
  if cfg.spreadsheetId = "" then
    { status := 500, success := false,
      error := some "Server not configured (SPREADSHEET_ID missing).",
      leadId := none, sinkWrite := none }
  else if reqFullName formData = "" ∨ reqPrimaryPhone formData = "" ∨
      reqPreferredChannel formData = "" then
    { status := 400, success := false,
      error := some "Missing required contact details (name, phone, preferred channel).",
      leadId := none, sinkWrite := none }
  else if sheetsOk then
    { status := 200, success := true, error := none,
      leadId := some (serverLeadId formData rand),
      sinkWrite := some (leadRow cfg formData (serverLeadId formData rand) timestamp) }
  else
    { status := 500, success := false,
      error := some "Failed to write to Google Sheets.",
      leadId := none, sinkWrite := none }

/-! ## Database variant — `src/netlify/functions/rb-lead.js` -/

/-- Request metadata assembled by the Netlify handler (`const meta = ...`);
each field is a string or `null`. -/
structure LeadMeta where
  source_page : JSValue
  user_agent : JSValue
  ip : JSValue
deriving DecidableEq, Repr

/-- The record inserted into the `rb_leads` table, with the column types the
source produces: trimmed strings, `Number(x)`-or-`null` for the three
numeric columns (the source can store NaN there, hence `Option JSNum`), a
boolean, and string-or-null metadata. -/
structure DbRecord where
  lead_id : String
  full_name : String
  primary_phone : String
  email : String
  preferred_channel : String
  hear_about_us : String
  parish : String
  community : String
  property_status : String
  rebuild_type : String
  hurricane_impact_level : Option JSNum
  project_priority : Option JSNum
  estimated_budget : String
  monthly_payment : String
  start_timeline_months : Option JSNum
  nht_contributor : String
  employment_type : String
  nht_product : String
  other_financing : String
  income_range : String
  overseas_sponsor : Bool
  sponsor_country : String
  willing_visit : String
  visit_window : String
  source_page : JSValue
  user_agent : JSValue
  ip : JSValue
deriving DecidableEq, Repr

/-- The idiom `String(v || '').trim()` used throughout
`mapPayloadToRecord`. -/
def jsStrTrim (v : JSValue) : String :=
  jsTrim (stringOfJS (jsOr v (.str "")))

/-- The idiom `x ? Number(x) : null` used for the numeric columns of
`mapPayloadToRecord`. -/
def numOrNull (v : JSValue) : Option JSNum :=
  if truthy v then some (jsNumber v) else none

/-- From `src/netlify/functions/rb-lead.js`
(`function mapPayloadToRecord(payload, meta)`).  `rand` stands for the
`Math.random()` draw used when `payload.leadId` is falsy. -/
def mapPayloadToRecord (payload : JSObj) (meta : LeadMeta) (rand : Rat) :
    DbRecord :=
  { lead_id := stringOfJS (jsOr (jget payload "leadId") (.str (generateLeadId rand))),
    full_name := jsStrTrim (jget payload "fullName"),
    primary_phone := jsStrTrim (jget payload "primaryPhone"),
    email := jsStrTrim (jget payload "email"),
    preferred_channel := jsStrTrim (jget payload "preferredChannel"),
    hear_about_us :=
      match jget payload "hearAboutUs" with
      | .arr l => String.intercalate ", " l
      | v => jsStrTrim v,
    parish := jsStrTrim (jget payload "parish"),
    community := jsStrTrim (jget payload "community"),
    property_status := jsStrTrim (jget payload "propertyStatus"),
    rebuild_type := jsStrTrim (jget payload "rebuildType"),
    hurricane_impact_level := numOrNull (jget payload "hurricaneImpactLevel"),
    project_priority := numOrNull (jget payload "projectPriority"),
    estimated_budget := jsStrTrim (jget payload "estimatedBudget"),
    monthly_payment :=
      jsTrim (stringOfJS (jsOr (jget payload "monthlyPayment")
        (jsOr (jget payload "comfortableMonthly") (.str "")))),
    start_timeline_months :=
      if truthy (jget payload "startTimelineMonths") then
        some (jsNumber (jget payload "startTimelineMonths"))
      else numOrNull (jget payload "desiredTimelineMonths"),
    nht_contributor := jsStrTrim (jget payload "nhtContributor"),
    employment_type := jsStrTrim (jget payload "employmentType"),
    nht_product := jsStrTrim (jget payload "nhtProduct"),
    other_financing := jsStrTrim (jget payload "otherFinancing"),
    income_range := jsStrTrim (jget payload "incomeRange"),
    overseas_sponsor :=
      jsStrictEq (jget payload "overseasSponsor") (.bool true) ||
      jsStrictEq (jget payload "overseasSponsor") (.str "true"),
    sponsor_country := jsStrTrim (jget payload "sponsorCountry"),
    willing_visit := jsStrTrim (jget payload "willingVisit"),
    visit_window := jsStrTrim (jget payload "visitWindow"),
    source_page := meta.source_page,
    user_agent := meta.user_agent,
    ip := meta.ip }

/-- One entry of the handler's `required` list: payload key plus the label
used in the error message. -/
structure ReqField where
  key : String
  label : String
deriving DecidableEq, Repr

/-- From `src/netlify/functions/rb-lead.js` (`const required = [...]`). -/
def requiredFields : List ReqField :=
  [⟨"fullName", "Full name"⟩,
   ⟨"primaryPhone", "Primary phone"⟩,
   ⟨"preferredChannel", "Preferred channel"⟩,
   ⟨"parish", "Parish"⟩,
   ⟨"rebuildType", "Rebuild type"⟩,
   ⟨"estimatedBudget", "Estimated budget"⟩,
   ⟨"monthlyPayment", "Monthly payment"⟩]

/-- From `src/netlify/functions/rb-lead.js` (the `required.filter`
predicate): `v === undefined || v === null ||
(typeof v === 'string' && v.trim() === '')`. -/
def isMissingValue (v : JSValue) : Bool :=
  v == .undef || v == .null ||
    (match v with
     | .str s => jsTrim s == ""
     | _ => false)

/-- From `src/netlify/functions/rb-lead.js`:
`const missing = required.filter(...)`. -/
def missingFields (payload : JSObj) : List ReqField :=
  requiredFields.filter fun r => isMissingValue (jget payload r.key)

/-- From `src/netlify/functions/rb-lead.js`: the `ip` / `user_agent` /
`source_page` metadata computed from the request headers and payload. -/
def leadMetaOf (payload : JSObj) (headers : JSObj) : LeadMeta :=
  { ip := jsOrNull (jsOr (jget headers "x-nf-client-connection-ip")
      (jget headers "x-forwarded-for")),
    user_agent := jsOrNull (jget headers "user-agent"),
    source_page := jsOrNull (jsOr (jget payload "source_page")
      (jsOr (jget headers "referer") (jget headers "referrer"))) }

/-- Outcome of one invocation of the Netlify handler: HTTP status code, the
`success` flag and `error` / `leadId` fields of the JSON body, and the
record offered to the Supabase insert (`none` when the handler returns
before reaching the insert call). -/
structure FnResult where
  statusCode : Nat
  success : Bool
  error : Option String
  leadId : Option String
  sinkInsert : Option DbRecord
deriving DecidableEq, Repr

/-- From `src/netlify/functions/rb-lead.js` (`exports.handler`).
`parsedBody` is the outcome of `JSON.parse(event.body || '{}')` (the JSON
parser is a platform builtin; a throw is `.error ()`, and only
object-valued JSON — the case every claim concerns — is modelled).  `rand`
stands for the `Math.random()` draw and `dbOk` for whether the Supabase
insert succeeds, in which case the database echoes back the inserted
record's `lead_id`. -/
def rbLeadHandler (httpMethod : String) (parsedBody : Except Unit JSObj)
    (headers : JSObj) (rand : Rat) (dbOk : Bool) : FnResult :=
  if httpMethod ≠ "POST" then
    { statusCode := 405, success := false, error := some "Method not allowed",
      leadId := none, sinkInsert := none }
  else
    match parsedBody with
    | .error _ =>
      { statusCode := 400, success := false, error := some "Invalid JSON payload",
        leadId := none, sinkInsert := none }
    | .ok payload =>
      if (missingFields payload).length > 0 then
        { statusCode := 400, success := false,
          error := some ("Missing required fields: " ++
            String.intercalate ", " ((missingFields payload).map ReqField.label)),
          leadId := none, sinkInsert := none }
      else
        let record := mapPayloadToRecord payload (leadMetaOf payload headers) rand
        if dbOk then
          { statusCode := 200, success := true, error := none,
            leadId := some record.lead_id, sinkInsert := some record }
        else
          { statusCode := 500, success := false,
            error := some "Failed to write lead to database.",
            leadId := none, sinkInsert := some record }

/-! ## Basic lemmas about the string model -/

theorem data_asString (l : List Char) : (List.asString l).data = l := rfl

theorem jsTrim_data (s : String) :
    (jsTrim s).data =
      List.rdropWhile jsWhitespace (List.dropWhile jsWhitespace s.data) := rfl

/-- `dropWhile` leaves a list whose head is already clean untouched, even
after a `rdropWhile`. -/
theorem dropWhile_rdropWhile_of_clean {p : Char → Bool} {l : List Char}
    (h : List.dropWhile p l = l) :
    List.dropWhile p (List.rdropWhile p l) = List.rdropWhile p l := by
  rw [List.dropWhile_eq_self_iff] at h ⊢
  intro hl
  obtain ⟨t, ht⟩ := List.rdropWhile_prefix p l
  have hlen : 0 < l.length := by
    rw [← ht, List.length_append]
    exact Nat.lt_of_lt_of_le hl (Nat.le_add_right _ _)
  have h0 : l[0]? = (List.rdropWhile p l)[0]? := by
    conv_lhs => rw [← ht]
    exact List.getElem?_append_left hl
  rw [List.getElem?_eq_getElem hl, List.getElem?_eq_getElem hlen] at h0
  have hget : (List.rdropWhile p l).get ⟨0, hl⟩ = l.get ⟨0, hlen⟩ := by
    simp only [List.get_eq_getElem]
    exact (Option.some.inj h0).symm
  rw [hget]
  exact h hlen

theorem jsTrim_idem (s : String) : jsTrim (jsTrim s) = jsTrim s := by
  show (((((jsTrim s).data.dropWhile jsWhitespace).reverse.dropWhile
      jsWhitespace).reverse).asString) = jsTrim s
  have h1 : (jsTrim s).data.dropWhile jsWhitespace = (jsTrim s).data := by
    rw [jsTrim_data]
    exact dropWhile_rdropWhile_of_clean (List.dropWhile_idempotent _ _)
  rw [h1]
  show List.asString (List.rdropWhile jsWhitespace (jsTrim s).data) = jsTrim s
  rw [jsTrim_data, List.rdropWhile_idempotent]
  rfl

theorem jsTrim_empty : jsTrim "" = "" := rfl

theorem ne_empty_of_jsTrim_ne_empty {s : String} (h : jsTrim s ≠ "") : s ≠ "" := by
  intro hs
  exact h (hs ▸ jsTrim_empty)

/-! ## Basic lemmas about `pick` and `jget` -/

theorem pick_nil (fd : JSObj) (fb : JSValue) : pick fd [] fb = fb := rfl

theorem pick_cons (fd : JSObj) (k : String) (rest : List String)
    (fb : JSValue) :
    pick fd (k :: rest) fb =
      if jget fd k ≠ JSValue.undef ∧ jget fd k ≠ JSValue.null ∧
          jsTrim (stringOfJS (jget fd k)) ≠ "" then jget fd k
      else pick fd rest fb := rfl

theorem pick_skip_head {fd : JSObj} {k : String} (rest : List String)
    (fb : JSValue)
    (h : jget fd k = .undef ∨ jget fd k = .null ∨
      jsTrim (stringOfJS (jget fd k)) = "") :
    pick fd (k :: rest) fb = pick fd rest fb := by
  rw [pick_cons]
  rcases h with h | h | h <;> simp [h]

theorem pick_hit_head {fd : JSObj} {k : String} {v : JSValue}
    (rest : List String) (fb : JSValue)
    (hv : jget fd k = v) (h0 : v ≠ .undef) (h1 : v ≠ .null)
    (h2 : jsTrim (stringOfJS v) ≠ "") :
    pick fd (k :: rest) fb = v := by
  rw [pick_cons]
  simp [hv, h0, h1, h2]

theorem pick_str_head {fd : JSObj} {k : String} {s : String}
    (rest : List String) (fb : JSValue)
    (hv : jget fd k = .str s) (h : jsTrim s ≠ "") :
    pick fd (k :: rest) fb = .str s :=
  pick_hit_head rest fb hv (by simp) (by simp) h

/-! ## Claim theorems -/

/-- C4: the numeric coercion `toNumber` computes `Number(x)` and substitutes
0 whenever the result is not finite, for every input value (it is a total
function, hence never throws); in particular `toNumber("12") = 12`,
`toNumber("abc") = 0`, `toNumber(undefined) = 0`. -/
theorem toNumber_coercion_policy :
    (∀ v : JSValue,
      (∃ q : Rat, jsNumber v = .fin q ∧ toNumber v = q) ∨
      ((jsNumber v = .nan ∨ jsNumber v = .inf ∨ jsNumber v = .neginf) ∧
        toNumber v = 0)) ∧
    toNumber (.str "12") = 12 ∧
    toNumber (.str "abc") = 0 ∧
    toNumber .undef = 0 := by
  refine ⟨?_, by decide, by decide, by decide⟩
  intro v
  cases h : jsNumber v with
  | fin q => exact .inl ⟨q, rfl, by simp [toNumber, h]⟩
  | nan => exact .inr ⟨.inl rfl, by simp [toNumber, h]⟩
  | inf => exact .inr ⟨.inr (.inl rfl), by simp [toNumber, h]⟩
  | neginf => exact .inr ⟨.inr (.inr rfl), by simp [toNumber, h]⟩

/-- C9: in the database-sink variant, every request whose HTTP method is not
POST is answered 405 `{success:false, error:"Method not allowed"}`, and every
POST whose body fails to parse as JSON is answered 400
`{success:false, error:"Invalid JSON payload"}`; in both cases no record is
offered to the database insert. -/
theorem rbLeadHandler_method_and_parse_guards
    (m : String) (hm : m ≠ "POST") (b : Except Unit JSObj)
    (headers headers2 : JSObj) (rand rand2 : Rat) (dbOk dbOk2 : Bool) :
    rbLeadHandler m b headers rand dbOk =
      { statusCode := 405, success := false, error := some "Method not allowed",
        leadId := none, sinkInsert := none } ∧
    rbLeadHandler "POST" (.error ()) headers2 rand2 dbOk2 =
      { statusCode := 400, success := false, error := some "Invalid JSON payload",
        leadId := none, sinkInsert := none } := by
  constructor
  · unfold rbLeadHandler
    rw [if_pos hm]
  · rfl

/-- Witness for C9: method GET is rejected with 405 and an unparseable body
with 400, neither reaching the insert. -/
theorem rbLeadHandler_method_and_parse_guards_w :
    "GET" ≠ "POST" ∧
    (rbLeadHandler "GET" (.ok []) [] 0 true =
      { statusCode := 405, success := false, error := some "Method not allowed",
        leadId := none, sinkInsert := none } ∧
    rbLeadHandler "POST" (.error ()) [] 0 true =
      { statusCode := 400, success := false, error := some "Invalid JSON payload",
        leadId := none, sinkInsert := none }) :=
  ⟨by decide,
   rbLeadHandler_method_and_parse_guards "GET" (by decide) (.ok []) [] [] 0 0 true true⟩

/-- C10: in the database-sink variant, the persisted `overseas_sponsor`
field is `true` exactly when the input `overseasSponsor` is the boolean
`true` or the string `"true"`; every other value — including `"yes"`,
`"True"`, the number 1, or a value supplied only under the
`hasOverseasSponsor` alias key — yields `false`. -/
theorem overseas_sponsor_strict_equality
    (payload : JSObj) (meta : LeadMeta) (rand : Rat) :
    ((mapPayloadToRecord payload meta rand).overseas_sponsor = true ↔
      jget payload "overseasSponsor" = .bool true ∨
      jget payload "overseasSponsor" = .str "true") ∧
    (mapPayloadToRecord [("overseasSponsor", .str "yes")] meta rand).overseas_sponsor = false ∧
    (mapPayloadToRecord [("overseasSponsor", .str "True")] meta rand).overseas_sponsor = false ∧
    (mapPayloadToRecord [("overseasSponsor", .num (.fin 1))] meta rand).overseas_sponsor = false ∧
    (mapPayloadToRecord [("hasOverseasSponsor", .bool true)] meta rand).overseas_sponsor = false ∧
    (mapPayloadToRecord [("overseasSponsor", .bool true)] meta rand).overseas_sponsor = true ∧
    (mapPayloadToRecord [("overseasSponsor", .str "true")] meta rand).overseas_sponsor = true := by
  refine ⟨?_, rfl, rfl, rfl, rfl, rfl, rfl⟩
  show (jsStrictEq (jget payload "overseasSponsor") (.bool true) ||
      jsStrictEq (jget payload "overseasSponsor") (.str "true")) = true ↔ _
  cases h : jget payload "overseasSponsor" with
  | undef => simp [jsStrictEq]
  | null => simp [jsStrictEq]
  | bool b => cases b <;> simp [jsStrictEq]
  | num v => cases v <;> simp [jsStrictEq]
  | str s => simp [jsStrictEq]
  | arr l => simp [jsStrictEq]

/-- The claims' notion of a required field being "absent or blank after
trimming": the key is not present at all, or its value is a string that
trims to the empty string. -/
def absentOrBlank (o : JSObj) (k : String) : Bool :=
  match jget o k with
  | .undef => true
  | .str s => jsTrim s == ""
  | _ => false

theorem reqField_blank_of_absentOrBlank {fd : JSObj} {k : String}
    (h : absentOrBlank fd k = true) :
    jsTrim (stringOfJS (pick fd [k] (.str ""))) = "" := by
  unfold absentOrBlank at h
  cases hv : jget fd k with
  | undef =>
    rw [pick_skip_head [] (.str "") (.inl hv)]
    rfl
  | str s =>
    rw [hv] at h
    simp only [beq_iff_eq] at h
    rw [pick_skip_head [] (.str "") (.inr (.inr (by rw [hv]; exact h)))]
    rfl
  | null => rw [hv] at h; simp at h
  | bool b => rw [hv] at h; simp at h
  | num v => rw [hv] at h; simp at h
  | arr l => rw [hv] at h; simp at h

theorem isMissingValue_of_absentOrBlank {o : JSObj} {k : String}
    (h : absentOrBlank o k = true) :
    isMissingValue (jget o k) = true := by
  unfold absentOrBlank at h
  unfold isMissingValue
  cases hv : jget o k <;> rw [hv] at h <;> simp_all

theorem missingFields_pos {payload : JSObj} (k label : String)
    (hmem : (⟨k, label⟩ : ReqField) ∈ requiredFields)
    (h : isMissingValue (jget payload k) = true) :
    0 < (missingFields payload).length := by
  have hf : (⟨k, label⟩ : ReqField) ∈ missingFields payload :=
    List.mem_filter.mpr ⟨hmem, h⟩
  exact List.length_pos.mpr (List.ne_nil_of_mem hf)

/-- C1: any submission whose `fullName`, `primaryPhone` or
`preferredChannel` is absent or blank after trimming is answered 400 with
`{success:false, error}` by both variants (the Sheets server assumed
configured), and no row is appended and no record is offered to the
database insert. -/
theorem required_missing_rejected_no_write
    (cfg : ServerConfig) (hcfg : cfg.spreadsheetId ≠ "")
    (fd : JSObj) (rand : Rat) (ts : String) (sheetsOk : Bool)
    (payload headers : JSObj) (rand2 : Rat) (dbOk : Bool)
    (hs : absentOrBlank fd "fullName" = true ∨
      absentOrBlank fd "primaryPhone" = true ∨
      absentOrBlank fd "preferredChannel" = true)
    (hd : absentOrBlank payload "fullName" = true ∨
      absentOrBlank payload "primaryPhone" = true ∨
      absentOrBlank payload "preferredChannel" = true) :
    postRbLead cfg fd rand ts sheetsOk =
      { status := 400, success := false,
        error := some "Missing required contact details (name, phone, preferred channel).",
        leadId := none, sinkWrite := none } ∧
    ((rbLeadHandler "POST" (.ok payload) headers rand2 dbOk).statusCode = 400 ∧
     (rbLeadHandler "POST" (.ok payload) headers rand2 dbOk).success = false ∧
     (rbLeadHandler "POST" (.ok payload) headers rand2 dbOk).error.isSome = true ∧
     (rbLeadHandler "POST" (.ok payload) headers rand2 dbOk).sinkInsert = none) := by
  constructor
  · have hblank : reqFullName fd = "" ∨ reqPrimaryPhone fd = "" ∨
        reqPreferredChannel fd = "" := by
      rcases hs with h | h | h
      · exact .inl (reqField_blank_of_absentOrBlank h)
      · exact .inr (.inl (reqField_blank_of_absentOrBlank h))
      · exact .inr (.inr (reqField_blank_of_absentOrBlank h))
    unfold postRbLead
    rw [if_neg hcfg, if_pos hblank]
  · have hlen : 0 < (missingFields payload).length := by
      rcases hd with h | h | h
      · exact missingFields_pos "fullName" "Full name" (by simp [requiredFields])
          (isMissingValue_of_absentOrBlank h)
      · exact missingFields_pos "primaryPhone" "Primary phone" (by simp [requiredFields])
          (isMissingValue_of_absentOrBlank h)
      · exact missingFields_pos "preferredChannel" "Preferred channel" (by simp [requiredFields])
          (isMissingValue_of_absentOrBlank h)
    unfold rbLeadHandler
    rw [if_neg (by simp : ¬("POST" ≠ "POST"))]
    simp only [gt_iff_lt, hlen, if_pos]
    exact ⟨trivial, trivial, rfl, trivial⟩

/-- Witness for C1: a submission with `fullName` absent (Sheets variant) and
one with a whitespace-only `fullName` (database variant) are both rejected
with 400 and reach no sink. -/
theorem required_missing_rejected_no_write_w :
    (stdConfig "SHEET").spreadsheetId ≠ "" ∧
    (absentOrBlank [("primaryPhone", .str "876-555-0000"),
        ("preferredChannel", .str "sms")] "fullName" = true ∨
      absentOrBlank [("primaryPhone", .str "876-555-0000"),
        ("preferredChannel", .str "sms")] "primaryPhone" = true ∨
      absentOrBlank [("primaryPhone", .str "876-555-0000"),
        ("preferredChannel", .str "sms")] "preferredChannel" = true) ∧
    (absentOrBlank [("fullName", .str "   "), ("primaryPhone", .str "876"),
        ("preferredChannel", .str "sms")] "fullName" = true ∨
      absentOrBlank [("fullName", .str "   "), ("primaryPhone", .str "876"),
        ("preferredChannel", .str "sms")] "primaryPhone" = true ∨
      absentOrBlank [("fullName", .str "   "), ("primaryPhone", .str "876"),
        ("preferredChannel", .str "sms")] "preferredChannel" = true) ∧
    (postRbLead (stdConfig "SHEET")
      [("primaryPhone", .str "876-555-0000"), ("preferredChannel", .str "sms")]
      0 "2026-01-01T00:00:00.000Z" true =
      { status := 400, success := false,
        error := some "Missing required contact details (name, phone, preferred channel).",
        leadId := none, sinkWrite := none } ∧
    ((rbLeadHandler "POST"
        (.ok [("fullName", .str "   "), ("primaryPhone", .str "876"),
          ("preferredChannel", .str "sms")]) [] 0 true).statusCode = 400 ∧
     (rbLeadHandler "POST"
        (.ok [("fullName", .str "   "), ("primaryPhone", .str "876"),
          ("preferredChannel", .str "sms")]) [] 0 true).success = false ∧
     (rbLeadHandler "POST"
        (.ok [("fullName", .str "   "), ("primaryPhone", .str "876"),
          ("preferredChannel", .str "sms")]) [] 0 true).error.isSome = true ∧
     (rbLeadHandler "POST"
        (.ok [("fullName", .str "   "), ("primaryPhone", .str "876"),
          ("preferredChannel", .str "sms")]) [] 0 true).sinkInsert = none)) :=
  ⟨by decide, by decide, by decide,
   required_missing_rejected_no_write (stdConfig "SHEET") (by decide)
     [("primaryPhone", .str "876-555-0000"), ("preferredChannel", .str "sms")]
     0 "2026-01-01T00:00:00.000Z" true
     [("fullName", .str "   "), ("primaryPhone", .str "876"),
       ("preferredChannel", .str "sms")] [] 0 true
     (by decide) (by decide)⟩

theorem jsStrTrim_str (s : String) : jsStrTrim (.str s) = jsTrim s := by
  unfold jsStrTrim jsOr
  by_cases h : s = ""
  · subst h; rfl
  · rw [if_pos (by simp [truthy, h])]
    rfl

/-- The three contact fields are, when present, string-valued. -/
def requiredAreStrings (payload : JSObj) : Bool :=
  ["fullName", "primaryPhone", "preferredChannel"].all fun k =>
    match jget payload k with
    | .undef => true
    | .str _ => true
    | _ => false

theorem requiredAreStrings_spec {payload : JSObj}
    (h : requiredAreStrings payload = true) (k : String)
    (hk : k = "fullName" ∨ k = "primaryPhone" ∨ k = "preferredChannel") :
    jget payload k = .undef ∨ ∃ s, jget payload k = .str s := by
  unfold requiredAreStrings at h
  simp only [List.all_cons, List.all_nil, Bool.and_true, Bool.and_eq_true] at h
  obtain ⟨h1, h2, h3⟩ := h
  have hcase : ∀ v : JSValue,
      (match v with
       | JSValue.undef => true
       | JSValue.str _ => true
       | _ => false) = true →
      v = .undef ∨ ∃ s, v = .str s := by
    intro v hv
    cases v with
    | undef => exact .inl rfl
    | str s => exact .inr ⟨s, rfl⟩
    | null => simp at hv
    | bool b => simp at hv
    | num n => simp at hv
    | arr l => simp at hv
  rcases hk with rfl | rfl | rfl
  · exact hcase _ h1
  · exact hcase _ h2
  · exact hcase _ h3

theorem postRbLead_sinkWrite_eq {cfg : ServerConfig} {fd : JSObj} {rand : Rat}
    {ts : String} {sheetsOk : Bool} {row : List Cell}
    (h : (postRbLead cfg fd rand ts sheetsOk).sinkWrite = some row) :
    row = leadRow cfg fd (serverLeadId fd rand) ts ∧
    ¬(reqFullName fd = "" ∨ reqPrimaryPhone fd = "" ∨
      reqPreferredChannel fd = "") := by
  unfold postRbLead at h
  by_cases h1 : cfg.spreadsheetId = ""
  · rw [if_pos h1] at h; exact absurd h (by simp)
  · rw [if_neg h1] at h
    by_cases h2 : reqFullName fd = "" ∨ reqPrimaryPhone fd = "" ∨
        reqPreferredChannel fd = ""
    · rw [if_pos h2] at h; exact absurd h (by simp)
    · rw [if_neg h2] at h
      by_cases h3 : sheetsOk = true
      · rw [if_pos h3] at h
        simp only [Option.some.injEq] at h
        exact ⟨h.symm, h2⟩
      · rw [if_neg h3] at h; exact absurd h (by simp)

/-- A POST with parseable body steps to the validation/insert part of the
handler. -/
theorem rbLeadHandler_post_ok (payload headers : JSObj) (rand : Rat)
    (dbOk : Bool) :
    rbLeadHandler "POST" (.ok payload) headers rand dbOk =
      if (missingFields payload).length > 0 then
        { statusCode := 400, success := false,
          error := some ("Missing required fields: " ++
            String.intercalate ", " ((missingFields payload).map ReqField.label)),
          leadId := none, sinkInsert := none }
      else if dbOk then
        { statusCode := 200, success := true, error := none,
          leadId := some (mapPayloadToRecord payload (leadMetaOf payload headers) rand).lead_id,
          sinkInsert := some (mapPayloadToRecord payload (leadMetaOf payload headers) rand) }
      else
        { statusCode := 500, success := false,
          error := some "Failed to write lead to database.",
          leadId := none,
          sinkInsert := some (mapPayloadToRecord payload (leadMetaOf payload headers) rand) } := rfl

theorem rbLeadHandler_sinkInsert_eq {payload headers : JSObj} {rand : Rat}
    {dbOk : Bool} {rec : DbRecord}
    (h : (rbLeadHandler "POST" (.ok payload) headers rand dbOk).sinkInsert = some rec) :
    rec = mapPayloadToRecord payload (leadMetaOf payload headers) rand ∧
    missingFields payload = [] := by
  rw [rbLeadHandler_post_ok] at h
  by_cases hm : (missingFields payload).length > 0
  · rw [if_pos hm] at h; exact absurd h (by simp)
  · rw [if_neg hm] at h
    have hnil : missingFields payload = [] :=
      List.length_eq_zero.mp (Nat.eq_zero_of_not_pos hm)
    by_cases hdb : dbOk = true
    · rw [if_pos hdb] at h
      simp only [Option.some.injEq] at h
      exact ⟨h.symm, hnil⟩
    · rw [if_neg hdb] at h
      simp only [Option.some.injEq] at h
      exact ⟨h.symm, hnil⟩

theorem db_field_trimmed_nonempty {payload : JSObj} {k : String}
    (hsv : jget payload k = .undef ∨ ∃ s, jget payload k = .str s)
    (hnm : ¬(isMissingValue (jget payload k) = true)) :
    jsStrTrim (jget payload k) ≠ "" ∧
    jsTrim (jsStrTrim (jget payload k)) = jsStrTrim (jget payload k) := by
  rcases hsv with h | ⟨s, h⟩
  · rw [h] at hnm
    simp [isMissingValue] at hnm
  · rw [h] at hnm ⊢
    rw [jsStrTrim_str]
    have hne : jsTrim s ≠ "" := by
      simpa [isMissingValue] using hnm
    exact ⟨hne, jsTrim_idem s⟩

/-- C2 counterexample: in the database variant the submission
`{fullName: 0, primaryPhone: "876-555-0000", preferredChannel: "whatsapp",
parish: "Kingston", rebuildType: "full", estimatedBudget: "5000000",
monthlyPayment: "50000", leadId: "RB99999"}` passes validation (the number
0 is neither undefined, null, nor a blank string) and a record is
constructed and inserted whose `full_name` is the empty string
(`String(0 || '')` is `''`), refuting the claimed invariant. -/
theorem db_blank_required_field_cex :
    (rbLeadHandler "POST"
      (.ok [("fullName", .num (.fin 0)), ("primaryPhone", .str "876-555-0000"),
        ("preferredChannel", .str "whatsapp"), ("parish", .str "Kingston"),
        ("rebuildType", .str "full"), ("estimatedBudget", .str "5000000"),
        ("monthlyPayment", .str "50000"), ("leadId", .str "RB99999")])
      [] 0 true).statusCode = 200 ∧
    Option.map DbRecord.full_name
      ((rbLeadHandler "POST"
        (.ok [("fullName", .num (.fin 0)), ("primaryPhone", .str "876-555-0000"),
          ("preferredChannel", .str "whatsapp"), ("parish", .str "Kingston"),
          ("rebuildType", .str "full"), ("estimatedBudget", .str "5000000"),
          ("monthlyPayment", .str "50000"), ("leadId", .str "RB99999")])
        [] 0 true).sinkInsert) = some "" := by
  exact ⟨by decide, by decide⟩

/-- C2 (amended): whenever a row (Sheets variant) or a database record is
constructed, its `fullName`, `primaryPhone` and `preferredChannel` fields
are non-empty and trimmed — for the database variant under the additional
assumption, forced by the counterexample, that the three contact values are
strings whenever present (a non-string falsy value such as the number 0
passes the validator but maps to the empty string). -/
theorem normalized_required_nonempty
    (cfg : ServerConfig) (fd : JSObj) (rand : Rat) (ts : String)
    (sheetsOk : Bool) (row : List Cell)
    (hrow : (postRbLead cfg fd rand ts sheetsOk).sinkWrite = some row)
    (payload headers : JSObj) (rand2 : Rat) (dbOk : Bool) (rec : DbRecord)
    (hstr : requiredAreStrings payload = true)
    (hrec : (rbLeadHandler "POST" (.ok payload) headers rand2 dbOk).sinkInsert = some rec) :
    (row.get? 2 = some (.str (reqFullName fd)) ∧ reqFullName fd ≠ "" ∧
      jsTrim (reqFullName fd) = reqFullName fd) ∧
    (row.get? 3 = some (.str (reqPrimaryPhone fd)) ∧ reqPrimaryPhone fd ≠ "" ∧
      jsTrim (reqPrimaryPhone fd) = reqPrimaryPhone fd) ∧
    (row.get? 5 = some (.str (reqPreferredChannel fd)) ∧ reqPreferredChannel fd ≠ "" ∧
      jsTrim (reqPreferredChannel fd) = reqPreferredChannel fd) ∧
    (rec.full_name ≠ "" ∧ jsTrim rec.full_name = rec.full_name) ∧
    (rec.primary_phone ≠ "" ∧ jsTrim rec.primary_phone = rec.primary_phone) ∧
    (rec.preferred_channel ≠ "" ∧ jsTrim rec.preferred_channel = rec.preferred_channel) := by
  obtain ⟨hroweq, hvalid⟩ := postRbLead_sinkWrite_eq hrow
  push_neg at hvalid
  obtain ⟨ha, hb, hc⟩ := hvalid
  obtain ⟨hreceq, hnil⟩ := rbLeadHandler_sinkInsert_eq hrec
  have hall := List.filter_eq_nil_iff.mp hnil
  have hfn := db_field_trimmed_nonempty
    (requiredAreStrings_spec hstr "fullName" (.inl rfl))
    (hall ⟨"fullName", "Full name"⟩ (by simp [requiredFields]))
  have hpp := db_field_trimmed_nonempty
    (requiredAreStrings_spec hstr "primaryPhone" (.inr (.inl rfl)))
    (hall ⟨"primaryPhone", "Primary phone"⟩ (by simp [requiredFields]))
  have hpc := db_field_trimmed_nonempty
    (requiredAreStrings_spec hstr "preferredChannel" (.inr (.inr rfl)))
    (hall ⟨"preferredChannel", "Preferred channel"⟩ (by simp [requiredFields]))
  subst hroweq
  subst hreceq
  exact ⟨⟨rfl, ha, jsTrim_idem _⟩, ⟨rfl, hb, jsTrim_idem _⟩,
    ⟨rfl, hc, jsTrim_idem _⟩, hfn, hpp, hpc⟩

/-- Witness for the amended C2: a fully valid string-valued submission
yields a row and a record whose contact fields are non-empty and trimmed. -/
theorem normalized_required_nonempty_w :
    ((postRbLead (stdConfig "SHEET")
        [("fullName", .str "Jane Doe"), ("primaryPhone", .str "876-555-0000"),
          ("preferredChannel", .str "whatsapp")]
        0 "2026-01-01T00:00:00.000Z" true).sinkWrite =
      some (leadRow (stdConfig "SHEET")
        [("fullName", .str "Jane Doe"), ("primaryPhone", .str "876-555-0000"),
          ("preferredChannel", .str "whatsapp")]
        (serverLeadId
          [("fullName", .str "Jane Doe"), ("primaryPhone", .str "876-555-0000"),
            ("preferredChannel", .str "whatsapp")] 0)
        "2026-01-01T00:00:00.000Z")) ∧
    requiredAreStrings
      [("fullName", .str "Jane Doe"), ("primaryPhone", .str "876-555-0000"),
        ("preferredChannel", .str "whatsapp"), ("parish", .str "Kingston"),
        ("rebuildType", .str "full"), ("estimatedBudget", .str "5000000"),
        ("monthlyPayment", .str "50000")] = true ∧
    ((rbLeadHandler "POST"
        (.ok [("fullName", .str "Jane Doe"), ("primaryPhone", .str "876-555-0000"),
          ("preferredChannel", .str "whatsapp"), ("parish", .str "Kingston"),
          ("rebuildType", .str "full"), ("estimatedBudget", .str "5000000"),
          ("monthlyPayment", .str "50000")])
        [] 0 true).sinkInsert =
      some (mapPayloadToRecord
        [("fullName", .str "Jane Doe"), ("primaryPhone", .str "876-555-0000"),
          ("preferredChannel", .str "whatsapp"), ("parish", .str "Kingston"),
          ("rebuildType", .str "full"), ("estimatedBudget", .str "5000000"),
          ("monthlyPayment", .str "50000")]
        (leadMetaOf
          [("fullName", .str "Jane Doe"), ("primaryPhone", .str "876-555-0000"),
            ("preferredChannel", .str "whatsapp"), ("parish", .str "Kingston"),
            ("rebuildType", .str "full"), ("estimatedBudget", .str "5000000"),
            ("monthlyPayment", .str "50000")] [])
        0)) ∧
    (reqFullName
      [("fullName", .str "Jane Doe"), ("primaryPhone", .str "876-555-0000"),
        ("preferredChannel", .str "whatsapp")] ≠ "" ∧
    (mapPayloadToRecord
        [("fullName", .str "Jane Doe"), ("primaryPhone", .str "876-555-0000"),
          ("preferredChannel", .str "whatsapp"), ("parish", .str "Kingston"),
          ("rebuildType", .str "full"), ("estimatedBudget", .str "5000000"),
          ("monthlyPayment", .str "50000")]
        (leadMetaOf
          [("fullName", .str "Jane Doe"), ("primaryPhone", .str "876-555-0000"),
            ("preferredChannel", .str "whatsapp"), ("parish", .str "Kingston"),
            ("rebuildType", .str "full"), ("estimatedBudget", .str "5000000"),
            ("monthlyPayment", .str "50000")] [])
        0).full_name ≠ "") := by
  refine ⟨rfl, by decide, rfl, ?_, ?_⟩
  · exact (normalized_required_nonempty (stdConfig "SHEET")
      [("fullName", .str "Jane Doe"), ("primaryPhone", .str "876-555-0000"),
        ("preferredChannel", .str "whatsapp")]
      0 "2026-01-01T00:00:00.000Z" true _ rfl
      [("fullName", .str "Jane Doe"), ("primaryPhone", .str "876-555-0000"),
        ("preferredChannel", .str "whatsapp"), ("parish", .str "Kingston"),
        ("rebuildType", .str "full"), ("estimatedBudget", .str "5000000"),
        ("monthlyPayment", .str "50000")]
      [] 0 true _ (by decide) rfl).1.2.1
  · exact (normalized_required_nonempty (stdConfig "SHEET")
      [("fullName", .str "Jane Doe"), ("primaryPhone", .str "876-555-0000"),
        ("preferredChannel", .str "whatsapp")]
      0 "2026-01-01T00:00:00.000Z" true _ rfl
      [("fullName", .str "Jane Doe"), ("primaryPhone", .str "876-555-0000"),
        ("preferredChannel", .str "whatsapp"), ("parish", .str "Kingston"),
        ("rebuildType", .str "full"), ("estimatedBudget", .str "5000000"),
        ("monthlyPayment", .str "50000")]
      [] 0 true _ (by decide) rfl).2.2.2.1.1

/-- C3 counterexample: the same submission carrying both aliases,
`comfortableMonthly:"100"` and `monthlyPayment:"200"`, is resolved to 100
(the `comfortableMonthly` value) by the Sheets variant but to "200" (the
`monthlyPayment` value) by the database variant — the two variants give the
alias pair opposite priorities. -/
theorem alias_priority_disagreement_cex :
    ((postRbLead (stdConfig "S")
      [("fullName", .str "Jane Doe"), ("primaryPhone", .str "876-555-0000"),
        ("preferredChannel", .str "whatsapp"), ("parish", .str "Kingston"),
        ("rebuildType", .str "full"), ("estimatedBudget", .str "100"),
        ("comfortableMonthly", .str "100"), ("monthlyPayment", .str "200"),
        ("leadId", .str "RB11111")]
      0 "2026-01-01T00:00:00.000Z" true).sinkWrite.getD []).get? 13 =
      some (.num 100) ∧
    Option.map DbRecord.monthly_payment
      ((rbLeadHandler "POST"
        (.ok [("fullName", .str "Jane Doe"), ("primaryPhone", .str "876-555-0000"),
          ("preferredChannel", .str "whatsapp"), ("parish", .str "Kingston"),
          ("rebuildType", .str "full"), ("estimatedBudget", .str "100"),
          ("comfortableMonthly", .str "100"), ("monthlyPayment", .str "200"),
          ("leadId", .str "RB11111")])
        [] 0 true).sinkInsert) = some "200" := by
  exact ⟨by decide, by decide⟩

/-- C3 (amended): when both `comfortableMonthly` and `monthlyPayment` are
present as non-blank strings, each variant resolves the alias pair
deterministically, but with opposite priorities: the Sheets row takes the
`comfortableMonthly` value (column N) while the database record's
`monthly_payment` takes the `monthlyPayment` value. -/
theorem alias_priority_per_variant
    (fd : JSObj) (cm mp : String)
    (hcm : jget fd "comfortableMonthly" = .str cm) (hcm' : jsTrim cm ≠ "")
    (hmp : jget fd "monthlyPayment" = .str mp) (hmp' : jsTrim mp ≠ "")
    (cfg : ServerConfig) (lid ts : String) (meta : LeadMeta) (rand : Rat) :
    (leadRow cfg fd lid ts).get? 13 = some (.num (toNumber (.str cm))) ∧
    (mapPayloadToRecord fd meta rand).monthly_payment = jsTrim mp := by
  constructor
  · have hp : pick fd ["comfortableMonthly", "monthlyPayment"] (.num (.fin 0)) =
        .str cm :=
      pick_str_head _ _ hcm hcm'
    rw [show (leadRow cfg fd lid ts).get? 13 =
      some (Cell.num (toNumber (pick fd ["comfortableMonthly", "monthlyPayment"]
        (.num (.fin 0))))) from rfl, hp]
  · show jsTrim (stringOfJS (jsOr (jget fd "monthlyPayment")
      (jsOr (jget fd "comfortableMonthly") (.str "")))) = jsTrim mp
    rw [hmp]
    unfold jsOr
    rw [if_pos (by simp [truthy, ne_empty_of_jsTrim_ne_empty hmp'])]
    rfl

/-- Witness for the amended C3: with `comfortableMonthly:"100"` and
`monthlyPayment:"200"` both present, the Sheets cell is `toNumber("100")`
and the database field is `"200"` trimmed. -/
theorem alias_priority_per_variant_w :
    jget [("comfortableMonthly", .str "100"), ("monthlyPayment", .str "200")]
      "comfortableMonthly" = .str "100" ∧
    jsTrim "100" ≠ "" ∧
    jget [("comfortableMonthly", .str "100"), ("monthlyPayment", .str "200")]
      "monthlyPayment" = .str "200" ∧
    jsTrim "200" ≠ "" ∧
    ((leadRow (stdConfig "S")
        [("comfortableMonthly", .str "100"), ("monthlyPayment", .str "200")]
        "RB11111" "2026-01-01T00:00:00.000Z").get? 13 =
      some (.num (toNumber (.str "100"))) ∧
    (mapPayloadToRecord
        [("comfortableMonthly", .str "100"), ("monthlyPayment", .str "200")]
        ⟨.null, .null, .null⟩ 0).monthly_payment = jsTrim "200") :=
  ⟨by decide, by decide, by decide, by decide,
   alias_priority_per_variant
     [("comfortableMonthly", .str "100"), ("monthlyPayment", .str "200")]
     "100" "200" (by decide) (by decide) (by decide) (by decide)
     (stdConfig "S") "RB11111" "2026-01-01T00:00:00.000Z" ⟨.null, .null, .null⟩ 0⟩

/-- C7: a supplied non-blank `leadId` (e.g. `"RB99999"`) is used verbatim —
no format validation — as the response's `leadId` and as the persisted
lead-id field, in both variants; when no `leadId` is supplied, a generated
one is used instead. -/
theorem leadId_passthrough
    (fd : JSObj) (lid fn ph ch pa rt eb mp : String)
    (hlid : jget fd "leadId" = .str lid) (hnb : jsTrim lid ≠ "")
    (hfn : jget fd "fullName" = .str fn) (hfn' : jsTrim fn ≠ "")
    (hph : jget fd "primaryPhone" = .str ph) (hph' : jsTrim ph ≠ "")
    (hch : jget fd "preferredChannel" = .str ch) (hch' : jsTrim ch ≠ "")
    (hpa : jget fd "parish" = .str pa) (hpa' : jsTrim pa ≠ "")
    (hrt : jget fd "rebuildType" = .str rt) (hrt' : jsTrim rt ≠ "")
    (heb : jget fd "estimatedBudget" = .str eb) (heb' : jsTrim eb ≠ "")
    (hmp : jget fd "monthlyPayment" = .str mp) (hmp' : jsTrim mp ≠ "")
    (cfg : ServerConfig) (hcfg : cfg.spreadsheetId ≠ "")
    (rand rand2 rand3 : Rat) (ts : String) (headers : JSObj)
    (meta meta' : LeadMeta) (fd' : JSObj)
    (habs : jget fd' "leadId" = .undef) :
    serverLeadId fd rand = lid ∧
    (postRbLead cfg fd rand ts true).leadId = some lid ∧
    (leadRow cfg fd (serverLeadId fd rand) ts).get? 1 = some (.str lid) ∧
    (mapPayloadToRecord fd meta rand2).lead_id = lid ∧
    (rbLeadHandler "POST" (.ok fd) headers rand2 true).leadId = some lid ∧
    serverLeadId fd' rand3 = generateLeadId rand3 ∧
    (mapPayloadToRecord fd' meta' rand3).lead_id = generateLeadId rand3 := by
  have hsrv : serverLeadId fd rand = lid := by
    unfold serverLeadId
    rw [pick_str_head _ _ hlid hnb]
    rfl
  have hdb : ∀ (m : LeadMeta) (r : Rat), (mapPayloadToRecord fd m r).lead_id = lid := by
    intro m r
    show stringOfJS (jsOr (jget fd "leadId") (.str (generateLeadId r))) = lid
    rw [hlid]
    unfold jsOr
    rw [if_pos (by simp [truthy, ne_empty_of_jsTrim_ne_empty hnb])]
    rfl
  have hreq : reqFullName fd = jsTrim fn ∧ reqPrimaryPhone fd = jsTrim ph ∧
      reqPreferredChannel fd = jsTrim ch := by
    refine ⟨?_, ?_, ?_⟩
    · unfold reqFullName; rw [pick_str_head _ _ hfn hfn']; rfl
    · unfold reqPrimaryPhone; rw [pick_str_head _ _ hph hph']; rfl
    · unfold reqPreferredChannel; rw [pick_str_head _ _ hch hch']; rfl
  have hvalid : ¬(reqFullName fd = "" ∨ reqPrimaryPhone fd = "" ∨
      reqPreferredChannel fd = "") := by
    rw [hreq.1, hreq.2.1, hreq.2.2]
    simp [hfn', hph', hch']
  have hnomiss : missingFields fd = [] := by
    unfold missingFields
    rw [List.filter_eq_nil_iff]
    intro r hr
    simp only [requiredFields, List.mem_cons, List.not_mem_nil, or_false] at hr
    rcases hr with rfl | rfl | rfl | rfl | rfl | rfl | rfl <;>
      simp only [isMissingValue, hfn, hph, hch, hpa, hrt, heb, hmp] <;>
      simp_all
  refine ⟨hsrv, ?_, ?_, hdb meta rand2, ?_, ?_, ?_⟩
  · unfold postRbLead
    rw [if_neg hcfg, if_neg hvalid, if_pos rfl]
    show some (serverLeadId fd rand) = some lid
    rw [hsrv]
  · show some (Cell.str (serverLeadId fd rand)) = some (Cell.str lid)
    rw [hsrv]
  · rw [rbLeadHandler_post_ok, if_neg (by simp [hnomiss]), if_pos rfl]
    show some ((mapPayloadToRecord fd (leadMetaOf fd headers) rand2).lead_id) =
      some lid
    rw [hdb]
  · unfold serverLeadId
    rw [pick_skip_head [] _ (.inl habs)]
    rfl
  · show stringOfJS (jsOr (jget fd' "leadId") (.str (generateLeadId rand3))) =
      generateLeadId rand3
    rw [habs]
    rfl

/-- Witness for C7: `leadId:"RB99999"` flows verbatim into the response and
the persisted row/record of both variants, and an empty submission gets a
generated id. -/
theorem leadId_passthrough_w :
    jget [("fullName", .str "Jane Doe"), ("primaryPhone", .str "876-555-0000"),
      ("preferredChannel", .str "whatsapp"), ("parish", .str "Kingston"),
      ("rebuildType", .str "full"), ("estimatedBudget", .str "5000000"),
      ("monthlyPayment", .str "50000"), ("leadId", .str "RB99999")]
      "leadId" = .str "RB99999" ∧
    jsTrim "RB99999" ≠ "" ∧
    jget [("fullName", .str "Jane Doe"), ("primaryPhone", .str "876-555-0000"),
      ("preferredChannel", .str "whatsapp"), ("parish", .str "Kingston"),
      ("rebuildType", .str "full"), ("estimatedBudget", .str "5000000"),
      ("monthlyPayment", .str "50000"), ("leadId", .str "RB99999")]
      "fullName" = .str "Jane Doe" ∧
    jsTrim "Jane Doe" ≠ "" ∧
    jget [("fullName", .str "Jane Doe"), ("primaryPhone", .str "876-555-0000"),
      ("preferredChannel", .str "whatsapp"), ("parish", .str "Kingston"),
      ("rebuildType", .str "full"), ("estimatedBudget", .str "5000000"),
      ("monthlyPayment", .str "50000"), ("leadId", .str "RB99999")]
      "primaryPhone" = .str "876-555-0000" ∧
    jsTrim "876-555-0000" ≠ "" ∧
    jget [("fullName", .str "Jane Doe"), ("primaryPhone", .str "876-555-0000"),
      ("preferredChannel", .str "whatsapp"), ("parish", .str "Kingston"),
      ("rebuildType", .str "full"), ("estimatedBudget", .str "5000000"),
      ("monthlyPayment", .str "50000"), ("leadId", .str "RB99999")]
      "preferredChannel" = .str "whatsapp" ∧
    jsTrim "whatsapp" ≠ "" ∧
    jget [("fullName", .str "Jane Doe"), ("primaryPhone", .str "876-555-0000"),
      ("preferredChannel", .str "whatsapp"), ("parish", .str "Kingston"),
      ("rebuildType", .str "full"), ("estimatedBudget", .str "5000000"),
      ("monthlyPayment", .str "50000"), ("leadId", .str "RB99999")]
      "parish" = .str "Kingston" ∧
    jsTrim "Kingston" ≠ "" ∧
    jget [("fullName", .str "Jane Doe"), ("primaryPhone", .str "876-555-0000"),
      ("preferredChannel", .str "whatsapp"), ("parish", .str "Kingston"),
      ("rebuildType", .str "full"), ("estimatedBudget", .str "5000000"),
      ("monthlyPayment", .str "50000"), ("leadId", .str "RB99999")]
      "rebuildType" = .str "full" ∧
    jsTrim "full" ≠ "" ∧
    jget [("fullName", .str "Jane Doe"), ("primaryPhone", .str "876-555-0000"),
      ("preferredChannel", .str "whatsapp"), ("parish", .str "Kingston"),
      ("rebuildType", .str "full"), ("estimatedBudget", .str "5000000"),
      ("monthlyPayment", .str "50000"), ("leadId", .str "RB99999")]
      "estimatedBudget" = .str "5000000" ∧
    jsTrim "5000000" ≠ "" ∧
    jget [("fullName", .str "Jane Doe"), ("primaryPhone", .str "876-555-0000"),
      ("preferredChannel", .str "whatsapp"), ("parish", .str "Kingston"),
      ("rebuildType", .str "full"), ("estimatedBudget", .str "5000000"),
      ("monthlyPayment", .str "50000"), ("leadId", .str "RB99999")]
      "monthlyPayment" = .str "50000" ∧
    jsTrim "50000" ≠ "" ∧
    (stdConfig "SHEET").spreadsheetId ≠ "" ∧
    jget ([] : JSObj) "leadId" = .undef ∧
    (serverLeadId [("fullName", .str "Jane Doe"), ("primaryPhone", .str "876-555-0000"),
      ("preferredChannel", .str "whatsapp"), ("parish", .str "Kingston"),
      ("rebuildType", .str "full"), ("estimatedBudget", .str "5000000"),
      ("monthlyPayment", .str "50000"), ("leadId", .str "RB99999")] 0 = "RB99999" ∧
    (postRbLead (stdConfig "SHEET") [("fullName", .str "Jane Doe"), ("primaryPhone", .str "876-555-0000"),
      ("preferredChannel", .str "whatsapp"), ("parish", .str "Kingston"),
      ("rebuildType", .str "full"), ("estimatedBudget", .str "5000000"),
      ("monthlyPayment", .str "50000"), ("leadId", .str "RB99999")]
      0 "2026-01-01T00:00:00.000Z" true).leadId = some "RB99999" ∧
    (leadRow (stdConfig "SHEET") [("fullName", .str "Jane Doe"), ("primaryPhone", .str "876-555-0000"),
      ("preferredChannel", .str "whatsapp"), ("parish", .str "Kingston"),
      ("rebuildType", .str "full"), ("estimatedBudget", .str "5000000"),
      ("monthlyPayment", .str "50000"), ("leadId", .str "RB99999")]
      (serverLeadId [("fullName", .str "Jane Doe"), ("primaryPhone", .str "876-555-0000"),
      ("preferredChannel", .str "whatsapp"), ("parish", .str "Kingston"),
      ("rebuildType", .str "full"), ("estimatedBudget", .str "5000000"),
      ("monthlyPayment", .str "50000"), ("leadId", .str "RB99999")] 0)
      "2026-01-01T00:00:00.000Z").get? 1 = some (.str "RB99999") ∧
    (mapPayloadToRecord [("fullName", .str "Jane Doe"), ("primaryPhone", .str "876-555-0000"),
      ("preferredChannel", .str "whatsapp"), ("parish", .str "Kingston"),
      ("rebuildType", .str "full"), ("estimatedBudget", .str "5000000"),
      ("monthlyPayment", .str "50000"), ("leadId", .str "RB99999")]
      ⟨.null, .null, .null⟩ 0).lead_id = "RB99999" ∧
    (rbLeadHandler "POST"
      (.ok [("fullName", .str "Jane Doe"), ("primaryPhone", .str "876-555-0000"),
      ("preferredChannel", .str "whatsapp"), ("parish", .str "Kingston"),
      ("rebuildType", .str "full"), ("estimatedBudget", .str "5000000"),
      ("monthlyPayment", .str "50000"), ("leadId", .str "RB99999")]) [] 0 true).leadId = some "RB99999" ∧
    serverLeadId ([] : JSObj) 0 = generateLeadId 0 ∧
    (mapPayloadToRecord ([] : JSObj) ⟨.null, .null, .null⟩ 0).lead_id =
      generateLeadId 0) :=
  ⟨rfl, by decide, rfl, by decide, rfl, by decide, rfl, by decide, rfl, by decide, rfl, by decide, rfl, by decide, rfl, by decide, by decide, rfl,
   leadId_passthrough
     [("fullName", .str "Jane Doe"), ("primaryPhone", .str "876-555-0000"),
      ("preferredChannel", .str "whatsapp"), ("parish", .str "Kingston"),
      ("rebuildType", .str "full"), ("estimatedBudget", .str "5000000"),
      ("monthlyPayment", .str "50000"), ("leadId", .str "RB99999")]
     "RB99999" "Jane Doe" "876-555-0000" "whatsapp" "Kingston" "full"
     "5000000" "50000"
     rfl (by decide) rfl (by decide) rfl (by decide) rfl (by decide) rfl (by decide) rfl (by decide) rfl (by decide) rfl (by decide)
     (stdConfig "SHEET") (by decide) 0 0 0 "2026-01-01T00:00:00.000Z" []
     ⟨.null, .null, .null⟩ ⟨.null, .null, .null⟩ [] rfl⟩

theorem natDigitsAux_lt_ten :
    ∀ (fuel n d : Nat), d ∈ natDigitsAux fuel n → d < 10 := by
  intro fuel
  induction fuel with
  | zero => intro n d hd; simp [natDigitsAux] at hd
  | succ fuel ih =>
    intro n d hd
    unfold natDigitsAux at hd
    by_cases hn : n < 10
    · rw [if_pos hn] at hd
      simp at hd
      omega
    · rw [if_neg hn] at hd
      rcases List.mem_append.mp hd with h | h
      · exact ih _ _ h
      · simp at h
        omega

theorem natDigitsAux_length :
    ∀ (fuel n k : Nat), n < fuel → 10 ^ k ≤ n → n < 10 ^ (k + 1) →
      (natDigitsAux fuel n).length = k + 1 := by
  intro fuel
  induction fuel with
  | zero => intro n k hn; omega
  | succ fuel ih =>
    intro n k hn hlb hub
    unfold natDigitsAux
    by_cases h10 : n < 10
    · rw [if_pos h10]
      have hk : k = 0 := by
        by_contra hk
        have h1k : 1 ≤ k := Nat.one_le_iff_ne_zero.mpr hk
        have : 10 ^ 1 ≤ 10 ^ k := Nat.pow_le_pow_right (by norm_num) h1k
        simp at this
        omega
      subst hk
      rfl
    · rw [if_neg h10]
      obtain ⟨k', rfl⟩ : ∃ k', k = k' + 1 := by
        cases k with
        | zero => simp at hlb hub; omega
        | succ k' => exact ⟨k', rfl⟩
      have hdiv_lb : 10 ^ k' ≤ n / 10 := by
        rw [Nat.le_div_iff_mul_le (by norm_num)]
        calc 10 ^ k' * 10 = 10 ^ (k' + 1) := by ring
        _ ≤ n := hlb
      have hdiv_ub : n / 10 < 10 ^ (k' + 1) := by
        rw [Nat.div_lt_iff_lt_mul (by norm_num)]
        calc n < 10 ^ (k' + 1 + 1) := hub
        _ = 10 ^ (k' + 1) * 10 := by ring
      have hfuel : n / 10 < fuel :=
        Nat.lt_of_lt_of_le (Nat.div_lt_self (by omega) (by norm_num))
          (Nat.lt_succ_iff.mp hn)
      rw [List.length_append, ih _ _ hfuel hdiv_lb hdiv_ub]
      rfl

theorem digitChar_isDigit (d : Nat) (h : d < 10) :
    (Nat.digitChar d).isDigit = true := by
  interval_cases d <;> decide

/-- C8: for every random draw in `[0, 1)`, the generated identifier is
`"RB"` followed by the decimal rendering of an integer in `10000..99999`,
which is exactly five decimal digits — i.e. the id matches `RB\d{5}`. -/
theorem generateLeadId_pattern (rand : Rat) (h0 : 0 ≤ rand) (h1 : rand < 1) :
    10000 ≤ (⌊rand * 90000⌋).toNat + 10000 ∧
    (⌊rand * 90000⌋).toNat + 10000 ≤ 99999 ∧
    generateLeadId rand =
      "RB" ++ natToStr ((⌊rand * 90000⌋).toNat + 10000) ∧
    (natToStr ((⌊rand * 90000⌋).toNat + 10000)).length = 5 ∧
    (natToStr ((⌊rand * 90000⌋).toNat + 10000)).data.all Char.isDigit = true := by
  have hf0 : (0 : Int) ≤ ⌊rand * 90000⌋ := Int.floor_nonneg.mpr (by positivity)
  have hf1 : ⌊rand * 90000⌋ < 90000 := by
    rw [Int.floor_lt]
    push_cast
    nlinarith
  have htn : (⌊rand * 90000⌋).toNat ≤ 89999 := by omega
  refine ⟨Nat.le_add_left _ _, by omega, rfl, ?_, ?_⟩
  · show ((natDigitsAux ((⌊rand * 90000⌋).toNat + 10000 + 1)
      ((⌊rand * 90000⌋).toNat + 10000)).map Nat.digitChar).length = 5
    rw [List.length_map]
    exact natDigitsAux_length _ _ 4 (Nat.lt_succ_self _) (by norm_num)
      (by norm_num; omega)
  · show ((natDigitsAux ((⌊rand * 90000⌋).toNat + 10000 + 1)
      ((⌊rand * 90000⌋).toNat + 10000)).map Nat.digitChar).all Char.isDigit = true
    rw [List.all_eq_true]
    intro c hc
    obtain ⟨d, hd, rfl⟩ := List.mem_map.mp hc
    exact digitChar_isDigit d (natDigitsAux_lt_ten _ _ d hd)

/-- Witness for C8: the draw 1/2 produces a five-digit id. -/
theorem generateLeadId_pattern_w :
    (0 : Rat) ≤ 1 / 2 ∧ (1 / 2 : Rat) < 1 ∧
    (10000 ≤ (⌊(1 / 2 : Rat) * 90000⌋).toNat + 10000 ∧
    (⌊(1 / 2 : Rat) * 90000⌋).toNat + 10000 ≤ 99999 ∧
    generateLeadId (1 / 2) =
      "RB" ++ natToStr ((⌊(1 / 2 : Rat) * 90000⌋).toNat + 10000) ∧
    (natToStr ((⌊(1 / 2 : Rat) * 90000⌋).toNat + 10000)).length = 5 ∧
    (natToStr ((⌊(1 / 2 : Rat) * 90000⌋).toNat + 10000)).data.all
      Char.isDigit = true) :=
  ⟨by norm_num, by norm_num,
   generateLeadId_pattern (1 / 2) (by norm_num) (by norm_num)⟩

/-- C6: the appended row consists of exactly 28 cells, positionally in the
order timestamp, leadId, fullName, primaryPhone, email, preferredChannel,
parish, community, propertyStatus, rebuildType, hurricaneImpactLevel,
projectPriority, estimatedBudget, comfortableMonthly, desiredTimelineMonths,
nhtContributor, nhtProduct, otherFinancing, employmentType, incomeRange,
hasOverseasSponsor, sponsorCountry, willingVisit, visitWindow, hearAboutUs,
leadScore, stage, notes (columns A..AB). -/
theorem leadRow_positional_schema (cfg : ServerConfig) (fd : JSObj)
    (lid ts : String) :
    (leadRow cfg fd lid ts).length = 28 ∧
    (leadRow cfg fd lid ts).get? 0 = some (.str ts) ∧
    (leadRow cfg fd lid ts).get? 1 = some (.str lid) ∧
    (leadRow cfg fd lid ts).get? 2 = some (.str (reqFullName fd)) ∧
    (leadRow cfg fd lid ts).get? 3 = some (.str (reqPrimaryPhone fd)) ∧
    (leadRow cfg fd lid ts).get? 4 = some (.str (stringOfJS (pick fd ["email"] (.str "")))) ∧
    (leadRow cfg fd lid ts).get? 5 = some (.str (reqPreferredChannel fd)) ∧
    (leadRow cfg fd lid ts).get? 6 = some (.str (stringOfJS (pick fd ["parish"] (.str "")))) ∧
    (leadRow cfg fd lid ts).get? 7 = some (.str (stringOfJS (pick fd ["community"] (.str "")))) ∧
    (leadRow cfg fd lid ts).get? 8 = some (.str (stringOfJS (pick fd ["propertyStatus"] (.str "")))) ∧
    (leadRow cfg fd lid ts).get? 9 = some (.str (stringOfJS (pick fd ["rebuildType"] (.str "")))) ∧
    (leadRow cfg fd lid ts).get? 10 = some (.num (toNumber (pick fd ["hurricaneImpactLevel"] (.num (.fin 0))))) ∧
    (leadRow cfg fd lid ts).get? 11 = some (.num (toNumber (pick fd ["projectPriority"] (.num (.fin 0))))) ∧
    (leadRow cfg fd lid ts).get? 12 = some (.num (toNumber (pick fd ["estimatedBudget"] (.num (.fin 0))))) ∧
    (leadRow cfg fd lid ts).get? 13 = some (.num (toNumber (pick fd ["comfortableMonthly", "monthlyPayment"] (.num (.fin 0))))) ∧
    (leadRow cfg fd lid ts).get? 14 = some (.num (toNumber (pick fd ["desiredTimelineMonths", "startTimelineMonths"] (.num (.fin 0))))) ∧
    (leadRow cfg fd lid ts).get? 15 = some (.str (stringOfJS (pick fd ["nhtContributor"] (.str "")))) ∧
    (leadRow cfg fd lid ts).get? 16 = some (.str (stringOfJS (pick fd ["nhtProduct"] (.str "")))) ∧
    (leadRow cfg fd lid ts).get? 17 = some (.str (stringOfJS (pick fd ["otherFinancing"] (.str "")))) ∧
    (leadRow cfg fd lid ts).get? 18 = some (.str (stringOfJS (pick fd ["employmentType"] (.str "")))) ∧
    (leadRow cfg fd lid ts).get? 19 = some (.str (stringOfJS (pick fd ["incomeRange"] (.str "")))) ∧
    (leadRow cfg fd lid ts).get? 20 = some (.str (jsTrim (stringOfJS (pick fd ["hasOverseasSponsor", "overseasSponsor"] (.str ""))))) ∧
    (leadRow cfg fd lid ts).get? 21 = some (.str (stringOfJS (pick fd ["sponsorCountry"] (.str "")))) ∧
    (leadRow cfg fd lid ts).get? 22 = some (.str (stringOfJS (pick fd ["willingVisit"] (.str "")))) ∧
    (leadRow cfg fd lid ts).get? 23 = some (.str (stringOfJS (pick fd ["visitWindow"] (.str "")))) ∧
    (leadRow cfg fd lid ts).get? 24 = some (.str (stringOfJS (pick fd ["hearAboutUs"] (.str "")))) ∧
    (leadRow cfg fd lid ts).get? 25 = some (.num (toNumber (pick fd ["leadScore"] (.num (.fin 0))))) ∧
    (leadRow cfg fd lid ts).get? 26 = some (.str (stringOfJS (pick fd ["stage"] (.str cfg.stageDefault)))) ∧
    (leadRow cfg fd lid ts).get? 27 = some (.str (stringOfJS (pick fd ["notes"] (.str cfg.notesDefault)))) ∧
    (leadRow cfg fd lid ts).get? 28 = none :=
  by
  repeat' apply And.intro
  all_goals rfl

/-- Lookup through a single absent key falls back. -/
theorem pick_one_undef {fd : JSObj} {k : String} (fb : JSValue)
    (h : jget fd k = .undef) : pick fd [k] fb = fb := by
  rw [pick_skip_head [] fb (.inl h)]
  exact pick_nil fd fb

/-- Lookup through two absent alias keys falls back. -/
theorem pick_two_undef {fd : JSObj} {k1 k2 : String} (fb : JSValue)
    (h1 : jget fd k1 = .undef) (h2 : jget fd k2 = .undef) :
    pick fd [k1, k2] fb = fb := by
  rw [pick_skip_head [k2] fb (.inl h1)]
  exact pick_one_undef fb h2

/-- C5: every valid submission (required contact fields present as non-blank
strings) is accepted with 200 and appends exactly the constructed row; the
row's required cells are the trimmed inputs, and — field by field — every
absent optional string field becomes `""`, every absent optional numeric
field becomes 0, and absent stage/notes get the configured defaults `"New"`
and `"Created via Rebuild Web Form"`. -/
theorem valid_submission_row_defaults
    (sid : String) (hsid : sid ≠ "") (fd : JSObj) (rand : Rat) (ts : String)
    (fn ph ch : String)
    (hfn : jget fd "fullName" = .str fn) (hfn' : jsTrim fn ≠ "")
    (hph : jget fd "primaryPhone" = .str ph) (hph' : jsTrim ph ≠ "")
    (hch : jget fd "preferredChannel" = .str ch) (hch' : jsTrim ch ≠ "") :
    postRbLead (stdConfig sid) fd rand ts true =
      { status := 200, success := true, error := none,
        leadId := some (serverLeadId fd rand),
        sinkWrite := some (leadRow (stdConfig sid) fd (serverLeadId fd rand) ts) } ∧
    (leadRow (stdConfig sid) fd (serverLeadId fd rand) ts).get? 2 =
      some (.str (jsTrim fn)) ∧
    (leadRow (stdConfig sid) fd (serverLeadId fd rand) ts).get? 3 =
      some (.str (jsTrim ph)) ∧
    (leadRow (stdConfig sid) fd (serverLeadId fd rand) ts).get? 5 =
      some (.str (jsTrim ch)) ∧
    (jget fd "email" = .undef →
      (leadRow (stdConfig sid) fd (serverLeadId fd rand) ts).get? 4 =
        some (.str "")) ∧
    (jget fd "parish" = .undef →
      (leadRow (stdConfig sid) fd (serverLeadId fd rand) ts).get? 6 =
        some (.str "")) ∧
    (jget fd "community" = .undef →
      (leadRow (stdConfig sid) fd (serverLeadId fd rand) ts).get? 7 =
        some (.str "")) ∧
    (jget fd "propertyStatus" = .undef →
      (leadRow (stdConfig sid) fd (serverLeadId fd rand) ts).get? 8 =
        some (.str "")) ∧
    (jget fd "rebuildType" = .undef →
      (leadRow (stdConfig sid) fd (serverLeadId fd rand) ts).get? 9 =
        some (.str "")) ∧
    (jget fd "hurricaneImpactLevel" = .undef →
      (leadRow (stdConfig sid) fd (serverLeadId fd rand) ts).get? 10 =
        some (.num 0)) ∧
    (jget fd "projectPriority" = .undef →
      (leadRow (stdConfig sid) fd (serverLeadId fd rand) ts).get? 11 =
        some (.num 0)) ∧
    (jget fd "estimatedBudget" = .undef →
      (leadRow (stdConfig sid) fd (serverLeadId fd rand) ts).get? 12 =
        some (.num 0)) ∧
    (jget fd "comfortableMonthly" = .undef →
      jget fd "monthlyPayment" = .undef →
      (leadRow (stdConfig sid) fd (serverLeadId fd rand) ts).get? 13 =
        some (.num 0)) ∧
    (jget fd "desiredTimelineMonths" = .undef →
      jget fd "startTimelineMonths" = .undef →
      (leadRow (stdConfig sid) fd (serverLeadId fd rand) ts).get? 14 =
        some (.num 0)) ∧
    (jget fd "nhtContributor" = .undef →
      (leadRow (stdConfig sid) fd (serverLeadId fd rand) ts).get? 15 =
        some (.str "")) ∧
    (jget fd "nhtProduct" = .undef →
      (leadRow (stdConfig sid) fd (serverLeadId fd rand) ts).get? 16 =
        some (.str "")) ∧
    (jget fd "otherFinancing" = .undef →
      (leadRow (stdConfig sid) fd (serverLeadId fd rand) ts).get? 17 =
        some (.str "")) ∧
    (jget fd "employmentType" = .undef →
      (leadRow (stdConfig sid) fd (serverLeadId fd rand) ts).get? 18 =
        some (.str "")) ∧
    (jget fd "incomeRange" = .undef →
      (leadRow (stdConfig sid) fd (serverLeadId fd rand) ts).get? 19 =
        some (.str "")) ∧
    (jget fd "hasOverseasSponsor" = .undef →
      jget fd "overseasSponsor" = .undef →
      (leadRow (stdConfig sid) fd (serverLeadId fd rand) ts).get? 20 =
        some (.str "")) ∧
    (jget fd "sponsorCountry" = .undef →
      (leadRow (stdConfig sid) fd (serverLeadId fd rand) ts).get? 21 =
        some (.str "")) ∧
    (jget fd "willingVisit" = .undef →
      (leadRow (stdConfig sid) fd (serverLeadId fd rand) ts).get? 22 =
        some (.str "")) ∧
    (jget fd "visitWindow" = .undef →
      (leadRow (stdConfig sid) fd (serverLeadId fd rand) ts).get? 23 =
        some (.str "")) ∧
    (jget fd "hearAboutUs" = .undef →
      (leadRow (stdConfig sid) fd (serverLeadId fd rand) ts).get? 24 =
        some (.str "")) ∧
    (jget fd "leadScore" = .undef →
      (leadRow (stdConfig sid) fd (serverLeadId fd rand) ts).get? 25 =
        some (.num 0)) ∧
    (jget fd "stage" = .undef →
      (leadRow (stdConfig sid) fd (serverLeadId fd rand) ts).get? 26 =
        some (.str "New")) ∧
    (jget fd "notes" = .undef →
      (leadRow (stdConfig sid) fd (serverLeadId fd rand) ts).get? 27 =
        some (.str "Created via Rebuild Web Form")) := by
  have hreqf : reqFullName fd = jsTrim fn := by
    unfold reqFullName; rw [pick_str_head _ _ hfn hfn']; rfl
  have hreqp : reqPrimaryPhone fd = jsTrim ph := by
    unfold reqPrimaryPhone; rw [pick_str_head _ _ hph hph']; rfl
  have hreqc : reqPreferredChannel fd = jsTrim ch := by
    unfold reqPreferredChannel; rw [pick_str_head _ _ hch hch']; rfl
  have hvalid : ¬(reqFullName fd = "" ∨ reqPrimaryPhone fd = "" ∨
      reqPreferredChannel fd = "") := by
    rw [hreqf, hreqp, hreqc]
    simp [hfn', hph', hch']
  have h200 : postRbLead (stdConfig sid) fd rand ts true =
      { status := 200, success := true, error := none,
        leadId := some (serverLeadId fd rand),
        sinkWrite := some (leadRow (stdConfig sid) fd (serverLeadId fd rand) ts) } := by
    unfold postRbLead
    rw [if_neg (by simpa [stdConfig] using hsid), if_neg hvalid, if_pos rfl]
  have hc2 : (leadRow (stdConfig sid) fd (serverLeadId fd rand) ts).get? 2 =
      some (Cell.str (jsTrim fn)) := by
    show some (Cell.str (reqFullName fd)) = some (Cell.str (jsTrim fn))
    rw [hreqf]
  have hc3 : (leadRow (stdConfig sid) fd (serverLeadId fd rand) ts).get? 3 =
      some (Cell.str (jsTrim ph)) := by
    show some (Cell.str (reqPrimaryPhone fd)) = some (Cell.str (jsTrim ph))
    rw [hreqp]
  have hc5 : (leadRow (stdConfig sid) fd (serverLeadId fd rand) ts).get? 5 =
      some (Cell.str (jsTrim ch)) := by
    show some (Cell.str (reqPreferredChannel fd)) = some (Cell.str (jsTrim ch))
    rw [hreqc]
  have e4 : jget fd "email" = .undef →
      (leadRow (stdConfig sid) fd (serverLeadId fd rand) ts).get? 4 =
        some (Cell.str "") := by
    intro h
    show some (Cell.str (stringOfJS (pick fd ["email"] (JSValue.str "")))) =
      some (Cell.str "")
    rw [pick_one_undef _ h]
    rfl
  have e6 : jget fd "parish" = .undef →
      (leadRow (stdConfig sid) fd (serverLeadId fd rand) ts).get? 6 =
        some (Cell.str "") := by
    intro h
    show some (Cell.str (stringOfJS (pick fd ["parish"] (JSValue.str "")))) =
      some (Cell.str "")
    rw [pick_one_undef _ h]
    rfl
  have e7 : jget fd "community" = .undef →
      (leadRow (stdConfig sid) fd (serverLeadId fd rand) ts).get? 7 =
        some (Cell.str "") := by
    intro h
    show some (Cell.str (stringOfJS (pick fd ["community"] (JSValue.str "")))) =
      some (Cell.str "")
    rw [pick_one_undef _ h]
    rfl
  have e8 : jget fd "propertyStatus" = .undef →
      (leadRow (stdConfig sid) fd (serverLeadId fd rand) ts).get? 8 =
        some (Cell.str "") := by
    intro h
    show some (Cell.str (stringOfJS (pick fd ["propertyStatus"] (JSValue.str "")))) =
      some (Cell.str "")
    rw [pick_one_undef _ h]
    rfl
  have e9 : jget fd "rebuildType" = .undef →
      (leadRow (stdConfig sid) fd (serverLeadId fd rand) ts).get? 9 =
        some (Cell.str "") := by
    intro h
    show some (Cell.str (stringOfJS (pick fd ["rebuildType"] (JSValue.str "")))) =
      some (Cell.str "")
    rw [pick_one_undef _ h]
    rfl
  have e10 : jget fd "hurricaneImpactLevel" = .undef →
      (leadRow (stdConfig sid) fd (serverLeadId fd rand) ts).get? 10 =
        some (Cell.num 0) := by
    intro h
    show some (Cell.num (toNumber (pick fd ["hurricaneImpactLevel"] (JSValue.num (.fin 0))))) =
      some (Cell.num 0)
    rw [pick_one_undef _ h]
    rfl
  have e11 : jget fd "projectPriority" = .undef →
      (leadRow (stdConfig sid) fd (serverLeadId fd rand) ts).get? 11 =
        some (Cell.num 0) := by
    intro h
    show some (Cell.num (toNumber (pick fd ["projectPriority"] (JSValue.num (.fin 0))))) =
      some (Cell.num 0)
    rw [pick_one_undef _ h]
    rfl
  have e12 : jget fd "estimatedBudget" = .undef →
      (leadRow (stdConfig sid) fd (serverLeadId fd rand) ts).get? 12 =
        some (Cell.num 0) := by
    intro h
    show some (Cell.num (toNumber (pick fd ["estimatedBudget"] (JSValue.num (.fin 0))))) =
      some (Cell.num 0)
    rw [pick_one_undef _ h]
    rfl
  have e13 : jget fd "comfortableMonthly" = .undef →
      jget fd "monthlyPayment" = .undef →
      (leadRow (stdConfig sid) fd (serverLeadId fd rand) ts).get? 13 =
        some (Cell.num 0) := by
    intro h1 h2
    show some (Cell.num (toNumber (pick fd ["comfortableMonthly", "monthlyPayment"]
      (JSValue.num (.fin 0))))) = some (Cell.num 0)
    rw [pick_two_undef _ h1 h2]
    rfl
  have e14 : jget fd "desiredTimelineMonths" = .undef →
      jget fd "startTimelineMonths" = .undef →
      (leadRow (stdConfig sid) fd (serverLeadId fd rand) ts).get? 14 =
        some (Cell.num 0) := by
    intro h1 h2
    show some (Cell.num (toNumber (pick fd ["desiredTimelineMonths", "startTimelineMonths"]
      (JSValue.num (.fin 0))))) = some (Cell.num 0)
    rw [pick_two_undef _ h1 h2]
    rfl
  have e15 : jget fd "nhtContributor" = .undef →
      (leadRow (stdConfig sid) fd (serverLeadId fd rand) ts).get? 15 =
        some (Cell.str "") := by
    intro h
    show some (Cell.str (stringOfJS (pick fd ["nhtContributor"] (JSValue.str "")))) =
      some (Cell.str "")
    rw [pick_one_undef _ h]
    rfl
  have e16 : jget fd "nhtProduct" = .undef →
      (leadRow (stdConfig sid) fd (serverLeadId fd rand) ts).get? 16 =
        some (Cell.str "") := by
    intro h
    show some (Cell.str (stringOfJS (pick fd ["nhtProduct"] (JSValue.str "")))) =
      some (Cell.str "")
    rw [pick_one_undef _ h]
    rfl
  have e17 : jget fd "otherFinancing" = .undef →
      (leadRow (stdConfig sid) fd (serverLeadId fd rand) ts).get? 17 =
        some (Cell.str "") := by
    intro h
    show some (Cell.str (stringOfJS (pick fd ["otherFinancing"] (JSValue.str "")))) =
      some (Cell.str "")
    rw [pick_one_undef _ h]
    rfl
  have e18 : jget fd "employmentType" = .undef →
      (leadRow (stdConfig sid) fd (serverLeadId fd rand) ts).get? 18 =
        some (Cell.str "") := by
    intro h
    show some (Cell.str (stringOfJS (pick fd ["employmentType"] (JSValue.str "")))) =
      some (Cell.str "")
    rw [pick_one_undef _ h]
    rfl
  have e19 : jget fd "incomeRange" = .undef →
      (leadRow (stdConfig sid) fd (serverLeadId fd rand) ts).get? 19 =
        some (Cell.str "") := by
    intro h
    show some (Cell.str (stringOfJS (pick fd ["incomeRange"] (JSValue.str "")))) =
      some (Cell.str "")
    rw [pick_one_undef _ h]
    rfl
  have e20 : jget fd "hasOverseasSponsor" = .undef →
      jget fd "overseasSponsor" = .undef →
      (leadRow (stdConfig sid) fd (serverLeadId fd rand) ts).get? 20 =
        some (Cell.str "") := by
    intro h1 h2
    show some (Cell.str (jsTrim (stringOfJS (pick fd ["hasOverseasSponsor", "overseasSponsor"]
      (JSValue.str ""))))) = some (Cell.str "")
    rw [pick_two_undef _ h1 h2]
    rfl
  have e21 : jget fd "sponsorCountry" = .undef →
      (leadRow (stdConfig sid) fd (serverLeadId fd rand) ts).get? 21 =
        some (Cell.str "") := by
    intro h
    show some (Cell.str (stringOfJS (pick fd ["sponsorCountry"] (JSValue.str "")))) =
      some (Cell.str "")
    rw [pick_one_undef _ h]
    rfl
  have e22 : jget fd "willingVisit" = .undef →
      (leadRow (stdConfig sid) fd (serverLeadId fd rand) ts).get? 22 =
        some (Cell.str "") := by
    intro h
    show some (Cell.str (stringOfJS (pick fd ["willingVisit"] (JSValue.str "")))) =
      some (Cell.str "")
    rw [pick_one_undef _ h]
    rfl
  have e23 : jget fd "visitWindow" = .undef →
      (leadRow (stdConfig sid) fd (serverLeadId fd rand) ts).get? 23 =
        some (Cell.str "") := by
    intro h
    show some (Cell.str (stringOfJS (pick fd ["visitWindow"] (JSValue.str "")))) =
      some (Cell.str "")
    rw [pick_one_undef _ h]
    rfl
  have e24 : jget fd "hearAboutUs" = .undef →
      (leadRow (stdConfig sid) fd (serverLeadId fd rand) ts).get? 24 =
        some (Cell.str "") := by
    intro h
    show some (Cell.str (stringOfJS (pick fd ["hearAboutUs"] (JSValue.str "")))) =
      some (Cell.str "")
    rw [pick_one_undef _ h]
    rfl
  have e25 : jget fd "leadScore" = .undef →
      (leadRow (stdConfig sid) fd (serverLeadId fd rand) ts).get? 25 =
        some (Cell.num 0) := by
    intro h
    show some (Cell.num (toNumber (pick fd ["leadScore"] (JSValue.num (.fin 0))))) =
      some (Cell.num 0)
    rw [pick_one_undef _ h]
    rfl
  have e26 : jget fd "stage" = .undef →
      (leadRow (stdConfig sid) fd (serverLeadId fd rand) ts).get? 26 =
        some (Cell.str "New") := by
    intro h
    show some (Cell.str (stringOfJS (pick fd ["stage"]
      (JSValue.str (stdConfig sid).stageDefault)))) =
      some (Cell.str "New")
    rw [pick_one_undef _ h]
    rfl
  have e27 : jget fd "notes" = .undef →
      (leadRow (stdConfig sid) fd (serverLeadId fd rand) ts).get? 27 =
        some (Cell.str "Created via Rebuild Web Form") := by
    intro h
    show some (Cell.str (stringOfJS (pick fd ["notes"]
      (JSValue.str (stdConfig sid).notesDefault)))) =
      some (Cell.str "Created via Rebuild Web Form")
    rw [pick_one_undef _ h]
    rfl
  exact ⟨h200, hc2, hc3, hc5, e4, e6, e7, e8, e9, e10, e11, e12, e13, e14, e15, e16, e17, e18, e19, e20, e21, e22, e23, e24, e25, e26, e27⟩

/-- Witness for C5: the spec's example scenario — POST
`{fullName:"Jane Doe", primaryPhone:"876-555-0000", preferredChannel:"whatsapp"}`
— is accepted with 200 and its row has trimmed contact cells, stage `"New"`,
the default notes string, an empty email cell and a zero comfortable-monthly
cell. -/
theorem valid_submission_row_defaults_w :
    ("SHEET" : String) ≠ "" ∧
    jget [("fullName", .str "Jane Doe"), ("primaryPhone", .str "876-555-0000"),
      ("preferredChannel", .str "whatsapp")] "fullName" = .str "Jane Doe" ∧
    jsTrim "Jane Doe" ≠ "" ∧
    jget [("fullName", .str "Jane Doe"), ("primaryPhone", .str "876-555-0000"),
      ("preferredChannel", .str "whatsapp")] "primaryPhone" = .str "876-555-0000" ∧
    jsTrim "876-555-0000" ≠ "" ∧
    jget [("fullName", .str "Jane Doe"), ("primaryPhone", .str "876-555-0000"),
      ("preferredChannel", .str "whatsapp")] "preferredChannel" = .str "whatsapp" ∧
    jsTrim "whatsapp" ≠ "" ∧
    postRbLead (stdConfig "SHEET")
      [("fullName", .str "Jane Doe"), ("primaryPhone", .str "876-555-0000"),
      ("preferredChannel", .str "whatsapp")]
      0 "2026-01-01T00:00:00.000Z" true =
      { status := 200, success := true, error := none,
        leadId := some (serverLeadId
          [("fullName", .str "Jane Doe"), ("primaryPhone", .str "876-555-0000"),
      ("preferredChannel", .str "whatsapp")] 0),
        sinkWrite := some (leadRow (stdConfig "SHEET")
      [("fullName", .str "Jane Doe"), ("primaryPhone", .str "876-555-0000"),
      ("preferredChannel", .str "whatsapp")]
      (serverLeadId
        [("fullName", .str "Jane Doe"), ("primaryPhone", .str "876-555-0000"),
      ("preferredChannel", .str "whatsapp")] 0)
      "2026-01-01T00:00:00.000Z") } ∧
    (leadRow (stdConfig "SHEET")
      [("fullName", .str "Jane Doe"), ("primaryPhone", .str "876-555-0000"),
      ("preferredChannel", .str "whatsapp")]
      (serverLeadId
        [("fullName", .str "Jane Doe"), ("primaryPhone", .str "876-555-0000"),
      ("preferredChannel", .str "whatsapp")] 0)
      "2026-01-01T00:00:00.000Z").get? 2 = some (.str (jsTrim "Jane Doe")) ∧
    (leadRow (stdConfig "SHEET")
      [("fullName", .str "Jane Doe"), ("primaryPhone", .str "876-555-0000"),
      ("preferredChannel", .str "whatsapp")]
      (serverLeadId
        [("fullName", .str "Jane Doe"), ("primaryPhone", .str "876-555-0000"),
      ("preferredChannel", .str "whatsapp")] 0)
      "2026-01-01T00:00:00.000Z").get? 4 = some (.str "") ∧
    (leadRow (stdConfig "SHEET")
      [("fullName", .str "Jane Doe"), ("primaryPhone", .str "876-555-0000"),
      ("preferredChannel", .str "whatsapp")]
      (serverLeadId
        [("fullName", .str "Jane Doe"), ("primaryPhone", .str "876-555-0000"),
      ("preferredChannel", .str "whatsapp")] 0)
      "2026-01-01T00:00:00.000Z").get? 13 = some (.num 0) ∧
    (leadRow (stdConfig "SHEET")
      [("fullName", .str "Jane Doe"), ("primaryPhone", .str "876-555-0000"),
      ("preferredChannel", .str "whatsapp")]
      (serverLeadId
        [("fullName", .str "Jane Doe"), ("primaryPhone", .str "876-555-0000"),
      ("preferredChannel", .str "whatsapp")] 0)
      "2026-01-01T00:00:00.000Z").get? 26 = some (.str "New") ∧
    (leadRow (stdConfig "SHEET")
      [("fullName", .str "Jane Doe"), ("primaryPhone", .str "876-555-0000"),
      ("preferredChannel", .str "whatsapp")]
      (serverLeadId
        [("fullName", .str "Jane Doe"), ("primaryPhone", .str "876-555-0000"),
      ("preferredChannel", .str "whatsapp")] 0)
      "2026-01-01T00:00:00.000Z").get? 27 = some (.str "Created via Rebuild Web Form") := by
  obtain ⟨c0, c2, c3, c5, d4, d6, d7, d8, d9, d10, d11, d12, d13, d14, d15,
      d16, d17, d18, d19, d20, d21, d22, d23, d24, d25, d26, d27⟩ :=
    valid_submission_row_defaults "SHEET" (by decide)
      [("fullName", .str "Jane Doe"), ("primaryPhone", .str "876-555-0000"),
      ("preferredChannel", .str "whatsapp")]
      0 "2026-01-01T00:00:00.000Z" "Jane Doe" "876-555-0000" "whatsapp"
      rfl (by decide) rfl (by decide) rfl (by decide)
  exact ⟨by decide, rfl, by decide, rfl, by decide, rfl, by decide,
    c0, c2, d4 rfl, d13 rfl rfl, d26 rfl, d27 rfl⟩
